import Mathlib

/-!
# gmobile: the display panel model (`src/gm-display-panel.c`)

A shallow embedding of `GmDisplayPanel`, its property setter and getters and
its two JSON hooks (`serialize_property`, `deserialize_property`), together
with a model of the json-glib / GObject routines that drive those hooks.

Conventions

* C `int` and `gint64` values are Lean `Int`s; the one narrowing conversion in
  the code (`radius = val`) is `gint64_to_int`.
* A pointer that may be `NULL` is an `Option`; a `GListStore` of cutouts is a
  `List Cutout`; a `GArray` of `int` is a `List Int`.
* `GmCutout` lives in another file of the library: its type and its JSON
  conversions are parameters (`Cutout`, `cutout_deserialize`,
  `cutout_serialize`).
* `gm_display_panel_set_corner_radii` calls itself; it carries a fuel argument
  and answers `none` when the fuel is used up.
-/

namespace Gmobile

/-! ## Machine integers -/

/-- Largest value of a C `int` (GLib `G_MAXINT`). -/
def G_MAXINT : Int := 2147483647

/-- Assignment of a `gint64` to an `int` (`radius = val`): the value is
reduced modulo 2^32 into the signed 32 bit range. -/
def gint64_to_int (val : Int) : Int :=
  (val + 2147483648) % 4294967296 - 2147483648

/-! ## JSON nodes (json-glib `JsonNode`) -/

/-- A parsed JSON value. Integers are `gint64` in json-glib. A floating point
value is kept as its truncation to an integer, which is the only view
`json_node_get_int` takes of it. An object keeps its members in document
order; as in a `JsonObject`, no two members of one object share a name. -/
inductive JsonNode where
  | null
  | int (v : Int)
  | double (truncated : Int)
  | boolean (b : Bool)
  | string (s : String)
  | array (elements : List JsonNode)
  | object (members : List (String × JsonNode))

/-- The four node kinds of json-glib (`JsonNodeType`). -/
inductive JsonNodeType where
  | JSON_NODE_OBJECT
  | JSON_NODE_ARRAY
  | JSON_NODE_VALUE
  | JSON_NODE_NULL
deriving DecidableEq, Repr

/-- The macro `JSON_NODE_TYPE`. -/
def JSON_NODE_TYPE : JsonNode → JsonNodeType
  | .null => .JSON_NODE_NULL
  | .array _ => .JSON_NODE_ARRAY
  | .object _ => .JSON_NODE_OBJECT
  | _ => .JSON_NODE_VALUE

/-- The macro `JSON_NODE_HOLDS_OBJECT`. -/
def JSON_NODE_HOLDS_OBJECT (node : JsonNode) : Bool :=
  decide (JSON_NODE_TYPE node = .JSON_NODE_OBJECT)

/-- The json-glib accessor behind `json_array_get_int_element`: an integer
yields itself, a double its truncation, a boolean 0 or 1, and anything else
(string, null, array, object) yields 0. -/
def json_node_get_int : JsonNode → Int
  | .int v => v
  | .double t => t
  | .boolean b => if b then 1 else 0
  | _ => 0

/-! ## The panel -/

/-- A C array `int[4]`. -/
structure IntArray4 where
  e0 : Int
  e1 : Int
  e2 : Int
  e3 : Int
deriving DecidableEq, Repr

/-- Read of a cell, `a[i]`, for `i` in `0..3`. -/
def IntArray4.get (a : IntArray4) (i : Nat) : Int :=
  match i with
  | 0 => a.e0
  | 1 => a.e1
  | 2 => a.e2
  | _ => a.e3

/-- Write of a cell, `a[i] = v`, for `i` in `0..3`. -/
def IntArray4.set (a : IntArray4) (i : Nat) (v : Int) : IntArray4 :=
  match i with
  | 0 => { a with e0 := v }
  | 1 => { a with e1 := v }
  | 2 => { a with e2 := v }
  | 3 => { a with e3 := v }
  | _ => a

/-- The cells in index order. -/
def IntArray4.toList (a : IntArray4) : List Int := [a.e0, a.e1, a.e2, a.e3]

/-- Positions of the corners in `corner_radii` (`GmCornerPosition`). -/
def GM_CORNER_POSITION_TOP_LEFT : Nat := 0

/-- Second corner, clockwise. -/
def GM_CORNER_POSITION_TOP_RIGHT : Nat := 1

/-- Third corner, clockwise. -/
def GM_CORNER_POSITION_BOTTOM_RIGHT : Nat := 2

/-- Fourth corner, clockwise. -/
def GM_CORNER_POSITION_BOTTOM_LEFT : Nat := 3

/-- The instance structure `struct _GmDisplayPanel`. -/
structure GmDisplayPanel (Cutout : Type) where
  name : Option String
  cutouts : Option (List Cutout)
  x_res : Int
  y_res : Int
  corner_radii : IntArray4
  width : Int
  height : Int

/-- The property ids of the class (the anonymous `enum` at the top of the
file). -/
inductive PropertyId where
  | PROP_0
  | PROP_NAME
  | PROP_CUTOUTS
  | PROP_X_RES
  | PROP_Y_RES
  | PROP_WIDTH
  | PROP_HEIGHT
  | PROP_BORDER_RADIUS
  | PROP_CORNER_RADII
  | PROP_LAST_PROP
deriving DecidableEq, Repr

/-- A `GValue` of one of the four value types the class uses: a string, a
`GListStore` object, an `int`, or a boxed `GArray` of `int`. -/
inductive GValue (Cutout : Type) where
  | string (s : Option String)
  | object (store : Option (List Cutout))
  | int (i : Int)
  | boxed (array : Option (List Int))

variable {Cutout : Type}

/-- GObject `g_value_dup_string`: `NULL` when the value holds no string. -/
def g_value_dup_string : GValue Cutout → Option String
  | .string s => s
  | _ => none

/-- GObject `g_value_get_object`: `NULL` when the value holds no object. -/
def g_value_get_object : GValue Cutout → Option (List Cutout)
  | .object o => o
  | _ => none

/-- GObject `g_value_get_int`: 0 when the value holds no `int`. -/
def g_value_get_int : GValue Cutout → Int
  | .int i => i
  | _ => 0

/-- GObject `g_value_get_boxed`: `NULL` when the value holds no boxed. -/
def g_value_get_boxed : GValue Cutout → Option (List Int)
  | .boxed a => a
  | _ => none

/-- GObject `g_value_set_object`: ignored unless the value is an object
value. -/
def g_value_set_object (value : GValue Cutout) (o : Option (List Cutout)) : GValue Cutout :=
  match value with
  | .object _ => .object o
  | v => v

/-- GObject `g_value_set_boxed`: ignored unless the value is a boxed value. -/
def g_value_set_boxed (value : GValue Cutout) (a : Option (List Int)) : GValue Cutout :=
  match value with
  | .boxed _ => .boxed a
  | v => v

/-- GObject `g_value_set_pointer`: none of the four value types is a pointer
type, so the call is refused and the value is left as it was. -/
def g_value_set_pointer (value : GValue Cutout) (_p : Option Unit) : GValue Cutout :=
  value

/-- The function `gm_display_panel_set_border_radius`: the loop writes
`border_radius` into each of the four cells. -/
def gm_display_panel_set_border_radius (self : GmDisplayPanel Cutout) (border_radius : Int) :
    GmDisplayPanel Cutout :=
  (List.range 4).foldl
    (fun s i => { s with corner_radii := s.corner_radii.set i border_radius }) self

/-- The function `gm_display_panel_set_corner_radii`. For a `NULL` or empty
array it calls itself with the argument `0`, that is `NULL`; an array of a
length other than 4 is refused by `g_return_if_fail`; otherwise the four
elements are copied. `none` means the fuel ran out. -/
def gm_display_panel_set_corner_radii :
    Nat → GmDisplayPanel Cutout → Option (List Int) → Option (GmDisplayPanel Cutout)
  | 0, _, _ => none
  | fuel + 1, self, corner_radii =>
    match corner_radii with
    | none => gm_display_panel_set_corner_radii fuel self none
    | some arr =>
      if arr.length = 0 then gm_display_panel_set_corner_radii fuel self none
      else if arr.length ≠ 4 then some self
      else some ((List.range 4).foldl
        (fun s i => { s with corner_radii := s.corner_radii.set i (arr.getD i 0) }) self)

/-- The function `gm_display_panel_set_property`. -/
def gm_display_panel_set_property (fuel : Nat) (self : GmDisplayPanel Cutout)
    (property_id : PropertyId) (value : GValue Cutout) : Option (GmDisplayPanel Cutout) :=
  match property_id with
  | .PROP_NAME => some { self with name := g_value_dup_string value }
  | .PROP_CUTOUTS => some { self with cutouts := g_value_get_object value }
  | .PROP_X_RES => some { self with x_res := g_value_get_int value }
  | .PROP_Y_RES => some { self with y_res := g_value_get_int value }
  | .PROP_BORDER_RADIUS => some (gm_display_panel_set_border_radius self (g_value_get_int value))
  | .PROP_CORNER_RADII => gm_display_panel_set_corner_radii fuel self (g_value_get_boxed value)
  | .PROP_WIDTH => some { self with width := g_value_get_int value }
  | .PROP_HEIGHT => some { self with height := g_value_get_int value }
  | _ => some self

/-- The function `gm_display_panel_get_name`. -/
def gm_display_panel_get_name (self : GmDisplayPanel Cutout) : Option String := self.name

/-- The function `gm_display_panel_get_cutouts`. -/
def gm_display_panel_get_cutouts (self : GmDisplayPanel Cutout) : Option (List Cutout) :=
  self.cutouts

/-- The function `gm_display_panel_get_x_res`. -/
def gm_display_panel_get_x_res (self : GmDisplayPanel Cutout) : Int := self.x_res

/-- The function `gm_display_panel_get_y_res`. -/
def gm_display_panel_get_y_res (self : GmDisplayPanel Cutout) : Int := self.y_res

/-- The function `gm_display_panel_get_border_radius`. -/
def gm_display_panel_get_border_radius (self : GmDisplayPanel Cutout) : Int :=
  self.corner_radii.get 0

/-- The function `gm_display_panel_get_corner_radii_array`: the address of the
panel's own `int[4]`. -/
def gm_display_panel_get_corner_radii_array (self : GmDisplayPanel Cutout) : IntArray4 :=
  self.corner_radii

/-- The function `gm_display_panel_get_corner_radii`: a fresh `GArray` to
which the four cells are appended in index order. -/
def gm_display_panel_get_corner_radii (self : GmDisplayPanel Cutout) : List Int :=
  (List.range 4).foldl (fun radii i => radii ++ [self.corner_radii.get i]) []

/-- The function `gm_display_panel_get_width`. -/
def gm_display_panel_get_width (self : GmDisplayPanel Cutout) : Int := self.width

/-- The function `gm_display_panel_get_height`. -/
def gm_display_panel_get_height (self : GmDisplayPanel Cutout) : Int := self.height

/-- The function `gm_display_panel_get_property`. -/
def gm_display_panel_get_property (self : GmDisplayPanel Cutout) (property_id : PropertyId)
    (value : GValue Cutout) : GValue Cutout :=
  match property_id with
  | .PROP_NAME => .string self.name
  | .PROP_CUTOUTS => .object self.cutouts
  | .PROP_X_RES => .int (gm_display_panel_get_x_res self)
  | .PROP_Y_RES => .int (gm_display_panel_get_y_res self)
  | .PROP_BORDER_RADIUS => .int (gm_display_panel_get_border_radius self)
  | .PROP_CORNER_RADII => .boxed (some (gm_display_panel_get_corner_radii self))
  | .PROP_WIDTH => .int (gm_display_panel_get_width self)
  | .PROP_HEIGHT => .int (gm_display_panel_get_height self)
  | _ => value

/-- The function `gm_display_panel_init`, run on the zero-filled instance that
`g_object_new` allocates: every field is 0 or `NULL` except `cutouts`, which
is a new empty store. `gm_display_panel_new` returns exactly this object. -/
def gm_display_panel_new : GmDisplayPanel Cutout :=
  { name := none, cutouts := some [], x_res := 0, y_res := 0,
    corner_radii := ⟨0, 0, 0, 0⟩, width := 0, height := 0 }

/-! ## The class description (`gm_display_panel_class_init`) -/

/-- The value types of the eight properties. -/
inductive GType where
  | G_TYPE_STRING
  | G_TYPE_LIST_STORE
  | G_TYPE_INT
  | G_TYPE_ARRAY
deriving DecidableEq, Repr

/-- A `GParamSpec` as far as this class needs it. Every property is
`G_PARAM_READWRITE`; every `int` property has the range `0 .. G_MAXINT` and
the default 0, the other three kinds have the default `NULL`. -/
structure GParamSpec where
  name : String
  value_type : GType
  param_id : PropertyId
deriving DecidableEq, Repr

/-- The table `props` that `gm_display_panel_class_init` installs, listed by
property id, which is the order `g_object_class_list_properties` reports. -/
def props : List GParamSpec :=
  [ ⟨"name", .G_TYPE_STRING, .PROP_NAME⟩,
    ⟨"cutouts", .G_TYPE_LIST_STORE, .PROP_CUTOUTS⟩,
    ⟨"x-res", .G_TYPE_INT, .PROP_X_RES⟩,
    ⟨"y-res", .G_TYPE_INT, .PROP_Y_RES⟩,
    ⟨"width", .G_TYPE_INT, .PROP_WIDTH⟩,
    ⟨"height", .G_TYPE_INT, .PROP_HEIGHT⟩,
    ⟨"border-radius", .G_TYPE_INT, .PROP_BORDER_RADIUS⟩,
    ⟨"corner-radii", .G_TYPE_ARRAY, .PROP_CORNER_RADII⟩ ]

/-! ## GObject and json-glib routines that drive the hooks

These routines belong to the GObject and json-glib libraries, not to gmobile.
They are modelled after the behaviour of those libraries for the four value
types of this class. -/

/-- GObject `is_canonical`: a key is canonical when it holds no underscore. -/
def is_canonical (key : List Char) : Bool :=
  !(key.contains '_')

/-- GObject `canonicalize_key`: every underscore becomes a dash. -/
def canonicalize_key (key : List Char) : List Char :=
  key.map (fun c => if c = '_' then '-' else c)

/-- GObject `param_spec_ht_lookup` in the pool of this class: the name as
given is tried first, then, if it is not canonical, its canonical form. -/
def param_spec_ht_lookup (param_name : List Char) : Option GParamSpec :=
  match props.find? (fun pspec => pspec.name.data == param_name) with
  | some pspec => some pspec
  | none =>
    if is_canonical param_name then none
    else props.find? (fun pspec => pspec.name.data == canonicalize_key param_name)

/-- GObject `g_param_spec_pool_lookup` for the panel class. A name without a
colon is looked up as it is. A name `Type::rest` is looked up as `rest` when
`Type` names the panel class (the only type of its ancestry that owns
properties); a name with a colon of any other shape finds nothing. -/
def g_param_spec_pool_lookup (param_name : String) : Option GParamSpec :=
  match param_name.data.dropWhile (fun c => c != ':') with
  | [] => param_spec_ht_lookup param_name.data
  | _ :: ':' :: rest =>
    if param_name.data.takeWhile (fun c => c != ':') = "GmDisplayPanel".data then
      param_spec_ht_lookup rest
    else none
  | _ => none

/-- GObject `g_object_class_find_property`: the lookup in the pool, so that
`border_radius` and `GmDisplayPanel::border-radius` find the property
"border-radius" as well. -/
def g_object_class_find_property (property_name : String) : Option GParamSpec :=
  g_param_spec_pool_lookup property_name

/-- GObject `g_value_init`: the zero value of the type. -/
def g_value_init (t : GType) : GValue Cutout :=
  match t with
  | .G_TYPE_STRING => .string none
  | .G_TYPE_LIST_STORE => .object none
  | .G_TYPE_INT => .int 0
  | .G_TYPE_ARRAY => .boxed none

/-- GObject `g_param_value_validate`: `true` when the value does not fit the
property, which for this class means an `int` outside `0 .. G_MAXINT`. -/
def g_param_value_validate (value : GValue Cutout) : Bool :=
  match value with
  | .int i => decide (i < 0) || decide (G_MAXINT < i)
  | _ => false

/-- GObject `g_param_value_defaults`: whether the value is the default of its
property (0 for an `int`, `NULL` otherwise). -/
def g_param_value_defaults (value : GValue Cutout) : Bool :=
  match value with
  | .string s => s.isNone
  | .object o => o.isNone
  | .int i => decide (i = 0)
  | .boxed a => a.isNone

/-- GObject `g_object_set_property`: a value that fails validation is refused
with a warning and the object is left alone; otherwise the class's
`set_property` runs. -/
def g_object_set_property (fuel : Nat) (object : GmDisplayPanel Cutout) (pspec : GParamSpec)
    (value : GValue Cutout) : Option (GmDisplayPanel Cutout) :=
  if g_param_value_validate value then some object
  else gm_display_panel_set_property fuel object pspec.param_id value

/-- The json-glib routine `json_deserialize_pspec`, the generic mapping from a
node to a value, for the four value types of this class: an integer node fills
an `int` value (narrowed from `gint64`), a string node a string value, a null
node clears a string or object value, an object node builds a new object (for
a `GListStore`, which has no settable property, an empty store); every other
pairing fails and leaves the value alone. No node fills a `GArray` value. -/
def json_deserialize_pspec (value : GValue Cutout) (node : JsonNode) : Bool × GValue Cutout :=
  match node, value with
  | .int v, .int _ => (true, .int (gint64_to_int v))
  | .string s, .string _ => (true, .string (some s))
  | .null, .string _ => (true, .string none)
  | .null, .object _ => (true, .object none)
  | .object _, .object _ => (true, .object (some []))
  | _, _ => (false, value)

/-- The json-glib routine `json_serializable_default_deserialize_property`,
which is `json_deserialize_pspec`. -/
def json_serializable_default_deserialize_property (value : GValue Cutout)
    (property_node : JsonNode) : Bool × GValue Cutout :=
  json_deserialize_pspec value property_node

/-- The json-glib routine `json_serialize_pspec` for the scalar properties. The
two other properties never reach it: the panel's hook answers for them by
name. -/
def json_serialize_pspec (value : GValue Cutout) : Option JsonNode :=
  match value with
  | .string (some s) => some (.string s)
  | .int i => some (.int i)
  | _ => none

/-- The json-glib routine `json_serializable_default_serialize_property`: a
value equal to the property's default yields no node. -/
def json_serializable_default_serialize_property (value : GValue Cutout) : Option JsonNode :=
  if g_param_value_defaults value then none else json_serialize_pspec value

/-- The json-glib accessor `json_node_get_array`. -/
def json_node_get_array : JsonNode → List JsonNode
  | .array elements => elements
  | _ => []

/-! ## The hooks of the panel -/

/-- The `for` loop of the "cutouts" branch of the deserialization hook:
`cutouts` is the store built so far; `none` is the `return FALSE` taken at the
first element that is no object. -/
def deserialize_property_cutouts_loop (cutout_deserialize : JsonNode → Cutout) :
    List JsonNode → List Cutout → Option (List Cutout)
  | [], cutouts => some cutouts
  | element_node :: rest, cutouts =>
    if JSON_NODE_HOLDS_OBJECT element_node then
      deserialize_property_cutouts_loop cutout_deserialize rest
        (cutouts ++ [cutout_deserialize element_node])
    else none

/-- The `for` loop of the "corner-radii" branch of the deserialization hook:
`radii` is the array built so far; `none` is the `return FALSE` taken at the
first element with `val >= G_MAXINT`. -/
def deserialize_property_radii_loop : List JsonNode → List Int → Option (List Int)
  | [], radii => some radii
  | element_node :: rest, radii =>
    let val := json_node_get_int element_node
    if val ≥ G_MAXINT then none
    else deserialize_property_radii_loop rest (radii ++ [gint64_to_int val])

/-- The function `gm_display_panel_serializable_deserialize_property`. The
result pairs the returned `gboolean` with the content of `value` on return. -/
def gm_display_panel_serializable_deserialize_property (cutout_deserialize : JsonNode → Cutout)
    (property_name : String) (value : GValue Cutout) (property_node : JsonNode) :
    Bool × GValue Cutout :=
  if property_name = "cutouts" then
    if JSON_NODE_TYPE property_node = .JSON_NODE_NULL then
      (true, g_value_set_pointer value none)
    else if JSON_NODE_TYPE property_node = .JSON_NODE_ARRAY then
      match deserialize_property_cutouts_loop cutout_deserialize
          (json_node_get_array property_node) [] with
      | some cutouts => (true, g_value_set_object value (some cutouts))
      | none => (false, value)
    else (false, value)
  else if property_name = "corner-radii" ∧ JSON_NODE_TYPE property_node = .JSON_NODE_ARRAY then
    if (json_node_get_array property_node).length ≠ 4 then (false, value)
    else
      match deserialize_property_radii_loop (json_node_get_array property_node) [] with
      | some radii => (true, g_value_set_boxed value (some radii))
      | none => (false, value)
  else json_serializable_default_deserialize_property value property_node

/-- The function `gm_display_panel_serializable_serialize_property`. A `NULL`
store has no items (`g_list_model_get_n_items` answers 0 for it). -/
def gm_display_panel_serializable_serialize_property (cutout_serialize : Cutout → JsonNode)
    (self : GmDisplayPanel Cutout) (property_name : String) (value : GValue Cutout) :
    Option JsonNode :=
  if property_name = "cutouts" then
    some (.array ((self.cutouts.getD []).foldl
      (fun array cutout => array ++ [cutout_serialize cutout]) []))
  else if property_name = "corner-radii" then
    some (.array ((List.range 4).foldl
      (fun array i => array ++ [JsonNode.int (self.corner_radii.get i)]) []))
  else json_serializable_default_serialize_property value

/-! ## Whole documents -/

/-- One round of the member loop of json-glib `json_gobject_new`: an unknown
member is skipped; otherwise the hook is asked, then the generic mapping if
the hook said `FALSE`; a value obtained either way is set on the object, and a
member that neither could convert is skipped with a warning. -/
def json_gobject_new_member (cutout_deserialize : JsonNode → Cutout) (fuel : Nat)
    (retval : GmDisplayPanel Cutout) (member : String × JsonNode) :
    Option (GmDisplayPanel Cutout) :=
  match g_object_class_find_property member.1 with
  | none => some retval
  | some pspec =>
    let hooked := gm_display_panel_serializable_deserialize_property cutout_deserialize
      pspec.name (g_value_init pspec.value_type) member.2
    let res := if hooked.1 then hooked else json_deserialize_pspec hooked.2 member.2
    if res.1 then g_object_set_property fuel retval pspec res.2 else some retval

/-- The member loop of `json_gobject_new`, in document order. -/
def json_gobject_new_members (cutout_deserialize : JsonNode → Cutout) (fuel : Nat) :
    GmDisplayPanel Cutout → List (String × JsonNode) → Option (GmDisplayPanel Cutout)
  | retval, [] => some retval
  | retval, member :: rest =>
    match json_gobject_new_member cutout_deserialize fuel retval member with
    | none => none
    | some next => json_gobject_new_members cutout_deserialize fuel next rest

/-- The json-glib routine `json_gobject_deserialize` at the panel type: a node
that is no object yields `NULL` (inner `none`); an object yields a new panel
on which the members are applied. The outer `none` means the fuel ran out. -/
def json_gobject_deserialize (cutout_deserialize : JsonNode → Cutout) (fuel : Nat)
    (node : JsonNode) : Option (Option (GmDisplayPanel Cutout)) :=
  match node with
  | .object members =>
    (json_gobject_new_members cutout_deserialize fuel gm_display_panel_new members).map some
  | _ => some none

/-- The function `gm_display_panel_new_from_data`, given what
`json_from_string (data, error)` returned (`none` for `NULL`). -/
def gm_display_panel_new_from_data (cutout_deserialize : JsonNode → Cutout) (fuel : Nat)
    (node : Option JsonNode) : Option (Option (GmDisplayPanel Cutout)) :=
  match node with
  | none => some none
  | some n => json_gobject_deserialize cutout_deserialize fuel n

/-- The json-glib routine `json_gobject_dump`: every property, in the order of
`props`, is read and handed to the serialization hook; a node the hook returns
becomes the member of that name (the names of `props` are distinct, so no
member replaces another). -/
def json_gobject_dump (cutout_serialize : Cutout → JsonNode) (self : GmDisplayPanel Cutout) :
    List (String × JsonNode) :=
  props.filterMap
    (fun pspec =>
      (gm_display_panel_serializable_serialize_property cutout_serialize self pspec.name
        (gm_display_panel_get_property self pspec.param_id
          (g_value_init pspec.value_type))).map (fun node => (pspec.name, node)))

/-- The json-glib routine `json_gobject_serialize`. -/
def json_gobject_serialize (cutout_serialize : Cutout → JsonNode)
    (self : GmDisplayPanel Cutout) : JsonNode :=
  .object (json_gobject_dump cutout_serialize self)

/-! ## Auxiliary facts -/

theorem gint64_to_int_of_int_range (v : Int) (hlo : -2147483648 ≤ v) (hhi : v ≤ 2147483647) :
    gint64_to_int v = v := by
  unfold gint64_to_int
  omega

theorem set_border_radius_eq (self : GmDisplayPanel Cutout) (r : Int) :
    gm_display_panel_set_border_radius self r = { self with corner_radii := ⟨r, r, r, r⟩ } := by
  simp [gm_display_panel_set_border_radius, List.range, List.range.loop, IntArray4.set]

theorem set_corner_radii_four (fuel : Nat) (self : GmDisplayPanel Cutout) (a b c d : Int) :
    gm_display_panel_set_corner_radii (fuel + 1) self (some [a, b, c, d])
      = some { self with corner_radii := ⟨a, b, c, d⟩ } := by
  simp [gm_display_panel_set_corner_radii, List.range, List.range.loop, IntArray4.set]

theorem get_corner_radii_eq (self : GmDisplayPanel Cutout) :
    gm_display_panel_get_corner_radii self = self.corner_radii.toList := by
  simp [gm_display_panel_get_corner_radii, List.range, List.range.loop, IntArray4.get,
    IntArray4.toList]

theorem radii_loop_four (a b c d : Int) :
    deserialize_property_radii_loop [.int a, .int b, .int c, .int d] []
      = if a < G_MAXINT ∧ b < G_MAXINT ∧ c < G_MAXINT ∧ d < G_MAXINT then
          some [gint64_to_int a, gint64_to_int b, gint64_to_int c, gint64_to_int d]
        else none := by
  simp only [deserialize_property_radii_loop, json_node_get_int, ge_iff_le]
  by_cases ha : G_MAXINT ≤ a
  · simp [ha, not_lt.mpr ha]
  by_cases hb : G_MAXINT ≤ b
  · simp [ha, hb, not_lt.mpr hb]
  by_cases hc : G_MAXINT ≤ c
  · simp [ha, hb, hc, not_lt.mpr hc]
  by_cases hd : G_MAXINT ≤ d
  · simp [ha, hb, hc, hd, not_lt.mpr hd]
  · simp [ha, hb, hc, hd, not_le.mp ha, not_le.mp hb, not_le.mp hc, not_le.mp hd]

theorem deserialize_corner_radii_four (cutout_deserialize : JsonNode → Cutout)
    (box : Option (List Int)) (a b c d : Int) :
    gm_display_panel_serializable_deserialize_property cutout_deserialize "corner-radii"
        (.boxed box) (.array [.int a, .int b, .int c, .int d])
      = if a < G_MAXINT ∧ b < G_MAXINT ∧ c < G_MAXINT ∧ d < G_MAXINT then
          (true, .boxed (some [gint64_to_int a, gint64_to_int b, gint64_to_int c,
            gint64_to_int d]))
        else (false, .boxed box) := by
  simp only [gm_display_panel_serializable_deserialize_property, json_node_get_array,
    JSON_NODE_TYPE, radii_loop_four]
  by_cases h : a < G_MAXINT ∧ b < G_MAXINT ∧ c < G_MAXINT ∧ d < G_MAXINT
  · simp [h, g_value_set_boxed]
  · simp [h]

theorem find_property_border_radius :
    g_object_class_find_property "border-radius"
      = some ⟨"border-radius", .G_TYPE_INT, .PROP_BORDER_RADIUS⟩ := by decide

theorem find_property_corner_radii :
    g_object_class_find_property "corner-radii"
      = some ⟨"corner-radii", .G_TYPE_ARRAY, .PROP_CORNER_RADII⟩ := by decide

theorem find_property_cutouts :
    g_object_class_find_property "cutouts"
      = some ⟨"cutouts", .G_TYPE_LIST_STORE, .PROP_CUTOUTS⟩ := by decide

theorem holds_object_iff (node : JsonNode) :
    JSON_NODE_HOLDS_OBJECT node = true ↔ ∃ members, node = .object members := by
  cases node <;> simp [JSON_NODE_HOLDS_OBJECT, JSON_NODE_TYPE]

theorem cutouts_loop_of_objects (cutout_deserialize : JsonNode → Cutout) :
    ∀ (elements : List JsonNode) (cutouts : List Cutout),
      (∀ e ∈ elements, JSON_NODE_HOLDS_OBJECT e = true) →
      deserialize_property_cutouts_loop cutout_deserialize elements cutouts
        = some (cutouts ++ elements.map cutout_deserialize)
  | [], cutouts, _ => by simp [deserialize_property_cutouts_loop]
  | e :: rest, cutouts, h => by
    have he : JSON_NODE_HOLDS_OBJECT e = true := h e (List.mem_cons_self e rest)
    have hrest : ∀ x ∈ rest, JSON_NODE_HOLDS_OBJECT x = true :=
      fun x hx => h x (List.mem_cons_of_mem e hx)
    simp [deserialize_property_cutouts_loop, he,
      cutouts_loop_of_objects cutout_deserialize rest _ hrest]

theorem cutouts_loop_of_non_object (cutout_deserialize : JsonNode → Cutout) :
    ∀ (elements : List JsonNode) (cutouts : List Cutout),
      (∃ e ∈ elements, JSON_NODE_HOLDS_OBJECT e = false) →
      deserialize_property_cutouts_loop cutout_deserialize elements cutouts = none
  | [], _, h => by simp at h
  | e :: rest, cutouts, h => by
    by_cases he : JSON_NODE_HOLDS_OBJECT e = true
    · have hrest : ∃ x ∈ rest, JSON_NODE_HOLDS_OBJECT x = false := by
        obtain ⟨x, hx, hxo⟩ := h
        rcases List.mem_cons.mp hx with rfl | hx
        · simp [he] at hxo
        · exact ⟨x, hx, hxo⟩
      simp [deserialize_property_cutouts_loop, he,
        cutouts_loop_of_non_object cutout_deserialize rest _ hrest]
    · simp [deserialize_property_cutouts_loop, he]

theorem ht_lookup_some (key : List Char) (pspec : GParamSpec)
    (h : param_spec_ht_lookup key = some pspec) : pspec ∈ props := by
  unfold param_spec_ht_lookup at h
  cases hfirst : props.find? (fun pspec => pspec.name.data == key) with
  | some found =>
    simp only [hfirst, Option.some.injEq] at h
    subst h
    exact List.mem_of_find?_eq_some hfirst
  | none =>
    simp only [hfirst] at h
    split at h
    · cases h
    · exact List.mem_of_find?_eq_some h

theorem find_property_some (n : String) (pspec : GParamSpec)
    (h : g_object_class_find_property n = some pspec) : pspec ∈ props := by
  unfold g_object_class_find_property g_param_spec_pool_lookup at h
  split at h
  · exact ht_lookup_some _ _ h
  · split at h
    · exact ht_lookup_some _ _ h
    · cases h
  · cases h

theorem find_property_alias_border_radius :
    g_object_class_find_property "border_radius"
        = some ⟨"border-radius", .G_TYPE_INT, .PROP_BORDER_RADIUS⟩ ∧
      g_object_class_find_property "GmDisplayPanel::corner_radii"
        = some ⟨"corner-radii", .G_TYPE_ARRAY, .PROP_CORNER_RADII⟩ ∧
      g_object_class_find_property "GObject::border-radius" = none ∧
      g_object_class_find_property "border:radius" = none := by decide

theorem radii_loop_length :
    ∀ (elements : List JsonNode) (radii result : List Int),
      deserialize_property_radii_loop elements radii = some result →
      result.length = radii.length + elements.length
  | [], radii, result, h => by
    simp [deserialize_property_radii_loop] at h
    simp [h]
  | e :: rest, radii, result, h => by
    simp only [deserialize_property_radii_loop] at h
    split at h
    · simp at h
    · have := radii_loop_length rest _ result h
      simp at this
      simp [this]
      omega

theorem length_four_cases (l : List Int) (h : l.length = 4) :
    ∃ a b c d, l = [a, b, c, d] := by
  match l, h with
  | [a, b, c, d], _ => exact ⟨a, b, c, d, rfl⟩

/-- What the member loop obtains for the "corner-radii" property, from the
hook or from the generic mapping, is always an array of four elements. -/
theorem corner_radii_value_has_four (cutout_deserialize : JsonNode → Cutout) (node : JsonNode)
    (res : Bool × GValue Cutout)
    (hres : res = (if (gm_display_panel_serializable_deserialize_property cutout_deserialize
        "corner-radii" (g_value_init .G_TYPE_ARRAY) node).1
      then gm_display_panel_serializable_deserialize_property cutout_deserialize
        "corner-radii" (g_value_init .G_TYPE_ARRAY) node
      else json_deserialize_pspec (gm_display_panel_serializable_deserialize_property
        cutout_deserialize "corner-radii" (g_value_init .G_TYPE_ARRAY) node).2 node))
    (hok : res.1 = true) : ∃ a b c d, res.2 = .boxed (some [a, b, c, d]) := by
  subst hres
  cases node with
  | array elements =>
    by_cases hlen : elements.length = 4
    · cases hloop : deserialize_property_radii_loop elements [] with
      | none =>
        simp [gm_display_panel_serializable_deserialize_property, JSON_NODE_TYPE,
          json_node_get_array, hlen, hloop, json_deserialize_pspec, g_value_init] at hok
      | some radii =>
        have h4 : radii.length = 4 := by
          have := radii_loop_length elements [] radii hloop
          simpa [hlen] using this
        obtain ⟨a, b, c, d, rfl⟩ := length_four_cases radii h4
        exact ⟨a, b, c, d, by
          simp [gm_display_panel_serializable_deserialize_property, JSON_NODE_TYPE,
            json_node_get_array, hlen, hloop, g_value_init, g_value_set_boxed]⟩
    · simp [gm_display_panel_serializable_deserialize_property, JSON_NODE_TYPE,
        json_node_get_array, hlen, json_deserialize_pspec, g_value_init] at hok
  | _ =>
    simp [gm_display_panel_serializable_deserialize_property, JSON_NODE_TYPE,
      json_serializable_default_deserialize_property, json_deserialize_pspec,
      g_value_init] at hok

/-- Setting a property other than "corner-radii" always returns, and unless it
is "border-radius" it leaves the corner radii alone. -/
theorem set_property_other (fuel : Nat) (object : GmDisplayPanel Cutout) (pspec : GParamSpec)
    (value : GValue Cutout) (hc : pspec.param_id ≠ .PROP_CORNER_RADII) :
    ∃ panel, g_object_set_property fuel object pspec value = some panel ∧
      (pspec.param_id ≠ .PROP_BORDER_RADIUS → panel.corner_radii = object.corner_radii) := by
  unfold g_object_set_property
  by_cases hv : g_param_value_validate value = true
  · exact ⟨object, by simp [hv], fun _ => rfl⟩
  · cases hid : pspec.param_id <;>
      simp_all [gm_display_panel_set_property]

/-- With fuel left, one round of the member loop always returns. -/
theorem member_returns (cutout_deserialize : JsonNode → Cutout) (fuel : Nat)
    (retval : GmDisplayPanel Cutout) (member : String × JsonNode) :
    ∃ panel, json_gobject_new_member cutout_deserialize (fuel + 1) retval member
      = some panel := by
  unfold json_gobject_new_member
  cases hfind : g_object_class_find_property member.1 with
  | none => exact ⟨retval, rfl⟩
  | some pspec =>
    have hmem := find_property_some _ _ hfind
    by_cases hc : pspec.param_id = .PROP_CORNER_RADII
    · have hp : pspec = ⟨"corner-radii", .G_TYPE_ARRAY, .PROP_CORNER_RADII⟩ := by
        simp [props] at hmem
        rcases hmem with h | h | h | h | h | h | h | h <;> simp_all
      subst hp
      simp only []
      generalize hres : (if (gm_display_panel_serializable_deserialize_property
          cutout_deserialize "corner-radii" (g_value_init .G_TYPE_ARRAY) member.2).1
        then gm_display_panel_serializable_deserialize_property cutout_deserialize
          "corner-radii" (g_value_init .G_TYPE_ARRAY) member.2
        else json_deserialize_pspec (gm_display_panel_serializable_deserialize_property
          cutout_deserialize "corner-radii" (g_value_init .G_TYPE_ARRAY) member.2).2
            member.2) = res
      by_cases hok : res.1 = true
      · obtain ⟨a, b, c, d, hv⟩ :=
          corner_radii_value_has_four cutout_deserialize member.2 res hres.symm hok
        exact ⟨{ retval with corner_radii := ⟨a, b, c, d⟩ }, by
          simp [hok, hv, g_object_set_property, g_param_value_validate,
            gm_display_panel_set_property, g_value_get_boxed, set_corner_radii_four]⟩
      · exact ⟨retval, by simp [hok]⟩
    · simp only []
      generalize (if (gm_display_panel_serializable_deserialize_property
          cutout_deserialize pspec.name (g_value_init pspec.value_type) member.2).1
        then gm_display_panel_serializable_deserialize_property cutout_deserialize
          pspec.name (g_value_init pspec.value_type) member.2
        else json_deserialize_pspec (gm_display_panel_serializable_deserialize_property
          cutout_deserialize pspec.name (g_value_init pspec.value_type) member.2).2
            member.2) = res
      by_cases hok : res.1 = true
      · obtain ⟨panel, hp, -⟩ := set_property_other (fuel + 1) retval pspec res.2 hc
        exact ⟨panel, by simp [hok, hp]⟩
      · exact ⟨retval, by simp [hok]⟩

/-- A member whose name resolves to neither radius property leaves the corner
radii alone. -/
theorem member_keeps_radii (cutout_deserialize : JsonNode → Cutout) (fuel : Nat)
    (retval panel : GmDisplayPanel Cutout) (member : String × JsonNode)
    (hother : ∀ pspec, g_object_class_find_property member.1 = some pspec →
      pspec.param_id ≠ .PROP_BORDER_RADIUS ∧ pspec.param_id ≠ .PROP_CORNER_RADII)
    (h : json_gobject_new_member cutout_deserialize fuel retval member = some panel) :
    panel.corner_radii = retval.corner_radii := by
  unfold json_gobject_new_member at h
  cases hfind : g_object_class_find_property member.1 with
  | none =>
    simp [hfind] at h
    rw [← h]
  | some pspec =>
    have hids := hother pspec hfind
    simp only [hfind] at h
    generalize (if (gm_display_panel_serializable_deserialize_property
        cutout_deserialize pspec.name (g_value_init pspec.value_type) member.2).1
      then gm_display_panel_serializable_deserialize_property cutout_deserialize
        pspec.name (g_value_init pspec.value_type) member.2
      else json_deserialize_pspec (gm_display_panel_serializable_deserialize_property
        cutout_deserialize pspec.name (g_value_init pspec.value_type) member.2).2
          member.2) = res at h
    by_cases hok : res.1 = true
    · obtain ⟨q, hq, hrad⟩ := set_property_other fuel retval pspec res.2 hids.2
      simp only [hok, if_true, hq, Option.some.injEq] at h
      rw [← h]
      exact hrad hids.1
    · simp only [hok, Bool.false_eq_true, if_false, Option.some.injEq] at h
      rw [← h]

theorem members_append (cutout_deserialize : JsonNode → Cutout) (fuel : Nat) :
    ∀ (front back : List (String × JsonNode)) (retval : GmDisplayPanel Cutout),
      json_gobject_new_members cutout_deserialize fuel retval (front ++ back)
        = (json_gobject_new_members cutout_deserialize fuel retval front).bind
            (fun mid => json_gobject_new_members cutout_deserialize fuel mid back)
  | [], back, retval => by simp [json_gobject_new_members]
  | m :: front, back, retval => by
    simp only [List.cons_append, json_gobject_new_members]
    cases json_gobject_new_member cutout_deserialize fuel retval m with
    | none => simp
    | some next => simpa using members_append cutout_deserialize fuel front back next

/-- With fuel left, the member loop returns on every document. -/
theorem members_return (cutout_deserialize : JsonNode → Cutout) (fuel : Nat) :
    ∀ (members : List (String × JsonNode)) (retval : GmDisplayPanel Cutout),
      ∃ panel, json_gobject_new_members cutout_deserialize (fuel + 1) retval members
        = some panel
  | [], retval => ⟨retval, rfl⟩
  | m :: rest, retval => by
    obtain ⟨next, hnext⟩ := member_returns cutout_deserialize fuel retval m
    obtain ⟨panel, hpanel⟩ := members_return cutout_deserialize fuel rest next
    exact ⟨panel, by simp [json_gobject_new_members, hnext, hpanel]⟩

/-- Members whose names resolve to neither radius property leave the corner
radii alone. -/
theorem members_keep_radii (cutout_deserialize : JsonNode → Cutout) (fuel : Nat) :
    ∀ (members : List (String × JsonNode)) (retval panel : GmDisplayPanel Cutout),
      (∀ m ∈ members, ∀ pspec, g_object_class_find_property m.1 = some pspec →
        pspec.param_id ≠ .PROP_BORDER_RADIUS ∧ pspec.param_id ≠ .PROP_CORNER_RADII) →
      json_gobject_new_members cutout_deserialize fuel retval members = some panel →
      panel.corner_radii = retval.corner_radii
  | [], retval, panel, _, h => by
    simp [json_gobject_new_members] at h
    rw [← h]
  | m :: rest, retval, panel, hnames, h => by
    simp only [json_gobject_new_members] at h
    cases hm : json_gobject_new_member cutout_deserialize fuel retval m with
    | none => simp [hm] at h
    | some next =>
      simp only [hm] at h
      have h1 := member_keeps_radii cutout_deserialize fuel retval next m
        (hnames m (List.mem_cons_self m rest)) hm
      have h2 := members_keep_radii cutout_deserialize fuel rest next panel
        (fun x hx => hnames x (List.mem_cons_of_mem m hx)) h
      rw [h2, h1]

/-- The member `"border-radius": R` with `R` in the range of the property sets
all four radii to `R`. -/
theorem member_border_radius (cutout_deserialize : JsonNode → Cutout) (fuel : Nat)
    (retval : GmDisplayPanel Cutout) (R : Int) (h0 : 0 ≤ R) (hmax : R ≤ G_MAXINT) :
    json_gobject_new_member cutout_deserialize fuel retval ("border-radius", .int R)
      = some { retval with corner_radii := ⟨R, R, R, R⟩ } := by
  have hval : g_param_value_validate (GValue.int R : GValue Cutout) = false := by
    simp only [G_MAXINT] at hmax
    simp [g_param_value_validate, G_MAXINT]
    omega
  have hnarrow : gint64_to_int R = R := by
    simp only [G_MAXINT] at hmax
    exact gint64_to_int_of_int_range R (by omega) (by omega)
  simp only [json_gobject_new_member, find_property_border_radius]
  simp [gm_display_panel_serializable_deserialize_property,
    json_serializable_default_deserialize_property, json_deserialize_pspec, g_value_init,
    hnarrow, g_object_set_property, hval, gm_display_panel_set_property, g_value_get_int,
    set_border_radius_eq]

/-- The member `"corner-radii": [a, b, c, d]` with every element below
`G_MAXINT` stores the four elements, narrowed to `int`. -/
theorem member_corner_radii_accepted (cutout_deserialize : JsonNode → Cutout) (fuel : Nat)
    (retval : GmDisplayPanel Cutout) (a b c d : Int)
    (h : a < G_MAXINT ∧ b < G_MAXINT ∧ c < G_MAXINT ∧ d < G_MAXINT) :
    json_gobject_new_member cutout_deserialize (fuel + 1) retval
        ("corner-radii", .array [.int a, .int b, .int c, .int d])
      = some { retval with corner_radii :=
          ⟨gint64_to_int a, gint64_to_int b, gint64_to_int c, gint64_to_int d⟩ } := by
  simp only [json_gobject_new_member, find_property_corner_radii, g_value_init,
    deserialize_corner_radii_four]
  simp [h, g_object_set_property, g_param_value_validate, gm_display_panel_set_property,
    g_value_get_boxed, set_corner_radii_four]

/-- The member `"corner-radii": [a, b, c, d]` with an element at or above
`G_MAXINT` is skipped. -/
theorem member_corner_radii_refused (cutout_deserialize : JsonNode → Cutout) (fuel : Nat)
    (retval : GmDisplayPanel Cutout) (a b c d : Int)
    (h : ¬ (a < G_MAXINT ∧ b < G_MAXINT ∧ c < G_MAXINT ∧ d < G_MAXINT)) :
    json_gobject_new_member cutout_deserialize fuel retval
        ("corner-radii", .array [.int a, .int b, .int c, .int d]) = some retval := by
  simp only [json_gobject_new_member, find_property_corner_radii, g_value_init,
    deserialize_corner_radii_four]
  simp [h, json_deserialize_pspec]

/-- The six property names other than "border-radius" and "corner-radii"
resolve to their own properties. -/
theorem other_names_resolve (n : String)
    (hn : n ∈ ["name", "cutouts", "x-res", "y-res", "width", "height"]) :
    ∀ pspec, g_object_class_find_property n = some pspec →
      pspec.param_id ≠ .PROP_BORDER_RADIUS ∧ pspec.param_id ≠ .PROP_CORNER_RADII := by
  have hall :
      g_object_class_find_property "name" = some ⟨"name", .G_TYPE_STRING, .PROP_NAME⟩ ∧
      g_object_class_find_property "cutouts"
        = some ⟨"cutouts", .G_TYPE_LIST_STORE, .PROP_CUTOUTS⟩ ∧
      g_object_class_find_property "x-res" = some ⟨"x-res", .G_TYPE_INT, .PROP_X_RES⟩ ∧
      g_object_class_find_property "y-res" = some ⟨"y-res", .G_TYPE_INT, .PROP_Y_RES⟩ ∧
      g_object_class_find_property "width" = some ⟨"width", .G_TYPE_INT, .PROP_WIDTH⟩ ∧
      g_object_class_find_property "height" = some ⟨"height", .G_TYPE_INT, .PROP_HEIGHT⟩ := by
    decide
  obtain ⟨h1, h2, h3, h4, h5, h6⟩ := hall
  intro pspec hp
  simp only [List.mem_cons, List.mem_singleton, List.not_mem_nil, or_false] at hn
  rcases hn with rfl | rfl | rfl | rfl | rfl | rfl
  · rw [h1] at hp
    cases hp
    exact ⟨by decide, by decide⟩
  · rw [h2] at hp
    cases hp
    exact ⟨by decide, by decide⟩
  · rw [h3] at hp
    cases hp
    exact ⟨by decide, by decide⟩
  · rw [h4] at hp
    cases hp
    exact ⟨by decide, by decide⟩
  · rw [h5] at hp
    cases hp
    exact ⟨by decide, by decide⟩
  · rw [h6] at hp
    cases hp
    exact ⟨by decide, by decide⟩

/-- The serialized members of a panel with uniform radii `R`: members of other
names first, then "border-radius" unless `R` is the default 0, then
"corner-radii". -/
theorem dump_uniform_radii (cutout_serialize : Cutout → JsonNode)
    (self : GmDisplayPanel Cutout) (R : Int) (hrad : self.corner_radii = ⟨R, R, R, R⟩) :
    ∃ front : List (String × JsonNode),
      json_gobject_dump cutout_serialize self
        = front ++ ((if R = 0 then [] else [("border-radius", JsonNode.int R)])
            ++ [("corner-radii", .array [.int R, .int R, .int R, .int R])]) ∧
      ∀ m ∈ front, m.1 ∈ ["name", "cutouts", "x-res", "y-res", "width", "height"] := by
  refine ⟨(props.take 6).filterMap
    (fun pspec =>
      (gm_display_panel_serializable_serialize_property cutout_serialize self pspec.name
        (gm_display_panel_get_property self pspec.param_id
          (g_value_init pspec.value_type))).map (fun node => (pspec.name, node))), ?_, ?_⟩
  · unfold json_gobject_dump
    have hsplit : props = props.take 6 ++ props.drop 6 := (List.take_append_drop 6 props).symm
    conv_lhs => rw [hsplit]
    rw [List.filterMap_append]
    congr 1
    by_cases hR : R = 0
    · subst hR
      simp [props, gm_display_panel_serializable_serialize_property,
        gm_display_panel_get_property, gm_display_panel_get_border_radius, hrad,
        IntArray4.get, json_serializable_default_serialize_property, g_param_value_defaults,
        List.range, List.range.loop]
    · simp [props, gm_display_panel_serializable_serialize_property,
        gm_display_panel_get_property, gm_display_panel_get_border_radius, hrad,
        IntArray4.get, json_serializable_default_serialize_property, g_param_value_defaults,
        json_serialize_pspec, List.range, List.range.loop, hR]
  · intro m hm
    obtain ⟨pspec, hp, hf⟩ := List.mem_filterMap.mp hm
    obtain ⟨node, -, hnode⟩ := Option.map_eq_some'.mp hf
    subst hnode
    simp [props] at hp
    rcases hp with h | h | h | h | h | h <;> subst h <;> simp

/-- The last member that sets the corner radii decides them: after it, members
of other names leave them alone. -/
theorem members_last_radius_member (cutout_deserialize : JsonNode → Cutout) (fuel : Nat)
    (front post : List (String × JsonNode)) (member : String × JsonNode) (target : IntArray4)
    (retval : GmDisplayPanel Cutout)
    (hmember : ∀ q : GmDisplayPanel Cutout,
      ∃ r, json_gobject_new_member cutout_deserialize (fuel + 1) q member = some r ∧
        r.corner_radii = target)
    (hpost : ∀ m ∈ post, ∀ pspec, g_object_class_find_property m.1 = some pspec →
      pspec.param_id ≠ .PROP_BORDER_RADIUS ∧ pspec.param_id ≠ .PROP_CORNER_RADII) :
    ∃ panel,
      json_gobject_new_members cutout_deserialize (fuel + 1) retval (front ++ member :: post)
        = some panel ∧
      panel.corner_radii = target := by
  obtain ⟨q, hq⟩ := members_return cutout_deserialize fuel front retval
  obtain ⟨r, hr, hrad⟩ := hmember q
  obtain ⟨panel, hpanel⟩ := members_return cutout_deserialize fuel post r
  refine ⟨panel, ?_, ?_⟩
  · simp [members_append, hq, json_gobject_new_members, hr, hpanel]
  · rw [members_keep_radii cutout_deserialize (fuel + 1) post r panel hpost hpanel, hrad]

/-- What the range check of the hook lets through: four elements in
`0 .. G_MAXINT - 1` are handed back unchanged, in array order. -/
theorem corner_radii_below_maxint_accepted (cutout_deserialize : JsonNode → Cutout)
    (box : Option (List Int)) (a b c d : Int)
    (ha : 0 ≤ a ∧ a < G_MAXINT) (hb : 0 ≤ b ∧ b < G_MAXINT) (hc : 0 ≤ c ∧ c < G_MAXINT)
    (hd : 0 ≤ d ∧ d < G_MAXINT) :
    gm_display_panel_serializable_deserialize_property cutout_deserialize "corner-radii"
        (.boxed box) (.array [.int a, .int b, .int c, .int d])
      = (true, .boxed (some [a, b, c, d])) := by
  rw [deserialize_corner_radii_four]
  obtain ⟨ha0, ha1⟩ := ha
  obtain ⟨hb0, hb1⟩ := hb
  obtain ⟨hc0, hc1⟩ := hc
  obtain ⟨hd0, hd1⟩ := hd
  simp only [ha1, hb1, hc1, hd1, and_self, if_true]
  simp only [G_MAXINT] at ha1 hb1 hc1 hd1
  rw [gint64_to_int_of_int_range a (by omega) (by omega),
    gint64_to_int_of_int_range b (by omega) (by omega),
    gint64_to_int_of_int_range c (by omega) (by omega),
    gint64_to_int_of_int_range d (by omega) (by omega)]

/-- What the range check of the hook stops: an element above `G_MAXINT`, at
any of the four positions, makes the hook fail. -/
theorem corner_radii_above_maxint_fails (cutout_deserialize : JsonNode → Cutout)
    (box : Option (List Int)) (a b c d : Int)
    (h : G_MAXINT < a ∨ G_MAXINT < b ∨ G_MAXINT < c ∨ G_MAXINT < d) :
    gm_display_panel_serializable_deserialize_property cutout_deserialize "corner-radii"
        (.boxed box) (.array [.int a, .int b, .int c, .int d]) = (false, .boxed box) := by
  rw [deserialize_corner_radii_four]
  have : ¬ (a < G_MAXINT ∧ b < G_MAXINT ∧ c < G_MAXINT ∧ d < G_MAXINT) := by
    rintro ⟨h1, h2, h3, h4⟩
    rcases h with h | h | h | h <;> omega
  simp [this]

/-- The serialized members of any panel: members of other names first, then
"border-radius" unless the top-left radius is the default 0, then
"corner-radii" with the four cells in index order. -/
theorem dump_radii_members (cutout_serialize : Cutout → JsonNode)
    (self : GmDisplayPanel Cutout) :
    ∃ front : List (String × JsonNode),
      json_gobject_dump cutout_serialize self
        = front ++ ((if self.corner_radii.e0 = 0 then []
              else [("border-radius", JsonNode.int self.corner_radii.e0)])
            ++ [("corner-radii", .array [.int self.corner_radii.e0, .int self.corner_radii.e1,
                .int self.corner_radii.e2, .int self.corner_radii.e3])]) ∧
      ∀ m ∈ front, m.1 ∈ ["name", "cutouts", "x-res", "y-res", "width", "height"] := by
  refine ⟨(props.take 6).filterMap
    (fun pspec =>
      (gm_display_panel_serializable_serialize_property cutout_serialize self pspec.name
        (gm_display_panel_get_property self pspec.param_id
          (g_value_init pspec.value_type))).map (fun node => (pspec.name, node))), ?_, ?_⟩
  · unfold json_gobject_dump
    have hsplit : props = props.take 6 ++ props.drop 6 := (List.take_append_drop 6 props).symm
    conv_lhs => rw [hsplit]
    rw [List.filterMap_append]
    congr 1
    by_cases hR : self.corner_radii.e0 = 0
    · simp [props, gm_display_panel_serializable_serialize_property,
        gm_display_panel_get_property, gm_display_panel_get_border_radius,
        IntArray4.get, json_serializable_default_serialize_property, g_param_value_defaults,
        List.range, List.range.loop, hR]
    · simp [props, gm_display_panel_serializable_serialize_property,
        gm_display_panel_get_property, gm_display_panel_get_border_radius,
        IntArray4.get, json_serializable_default_serialize_property, g_param_value_defaults,
        json_serialize_pspec, List.range, List.range.loop, hR]
  · intro m hm
    obtain ⟨pspec, hp, hf⟩ := List.mem_filterMap.mp hm
    obtain ⟨node, -, hnode⟩ := Option.map_eq_some'.mp hf
    subst hnode
    simp [props] at hp
    rcases hp with h | h | h | h | h | h <;> subst h <;> simp

/-- A "corner-radii" member whose array has not four elements is skipped. -/
theorem member_corner_radii_wrong_length (cutout_deserialize : JsonNode → Cutout) (fuel : Nat)
    (retval : GmDisplayPanel Cutout) (elements : List JsonNode) (hlen : elements.length ≠ 4) :
    json_gobject_new_member cutout_deserialize fuel retval ("corner-radii", .array elements)
      = some retval := by
  simp [json_gobject_new_member, find_property_corner_radii,
    gm_display_panel_serializable_deserialize_property, JSON_NODE_TYPE, json_node_get_array,
    hlen, json_deserialize_pspec, g_value_init]

/-- A "corner-radii" member that is no array is skipped. -/
theorem member_corner_radii_not_array (cutout_deserialize : JsonNode → Cutout) (fuel : Nat)
    (retval : GmDisplayPanel Cutout) (node : JsonNode)
    (hnode : ∀ elements, node ≠ JsonNode.array elements) :
    json_gobject_new_member cutout_deserialize fuel retval ("corner-radii", node)
      = some retval := by
  cases node with
  | array elements => exact absurd rfl (hnode elements)
  | _ =>
    simp [json_gobject_new_member, find_property_corner_radii,
      gm_display_panel_serializable_deserialize_property, JSON_NODE_TYPE,
      json_serializable_default_deserialize_property, json_deserialize_pspec, g_value_init]

/-- A "cutouts" member whose array holds an element that is no object is
skipped. -/
theorem member_cutouts_non_object (cutout_deserialize : JsonNode → Cutout) (fuel : Nat)
    (retval : GmDisplayPanel Cutout) (elements : List JsonNode)
    (hbad : ∃ e ∈ elements, ∀ members, e ≠ JsonNode.object members) :
    json_gobject_new_member cutout_deserialize fuel retval ("cutouts", .array elements)
      = some retval := by
  have hloop : deserialize_property_cutouts_loop cutout_deserialize elements [] = none := by
    apply cutouts_loop_of_non_object
    obtain ⟨e, he, hne⟩ := hbad
    refine ⟨e, he, ?_⟩
    cases hobj : JSON_NODE_HOLDS_OBJECT e
    · rfl
    · obtain ⟨members, hm⟩ := (holds_object_iff e).mp hobj
      exact absurd hm (hne members)
  simp [json_gobject_new_member, find_property_cutouts,
    gm_display_panel_serializable_deserialize_property, JSON_NODE_TYPE, json_node_get_array,
    hloop, json_deserialize_pspec, g_value_init]

/-- A member that every round of the loop skips can be struck from the
document. -/
theorem members_skip (cutout_deserialize : JsonNode → Cutout) (fuel : Nat)
    (pre post : List (String × JsonNode)) (member : String × JsonNode)
    (retval : GmDisplayPanel Cutout)
    (hskip : ∀ q : GmDisplayPanel Cutout,
      json_gobject_new_member cutout_deserialize fuel q member = some q) :
    json_gobject_new_members cutout_deserialize fuel retval (pre ++ member :: post)
      = json_gobject_new_members cutout_deserialize fuel retval (pre ++ post) := by
  rw [members_append, members_append]
  cases json_gobject_new_members cutout_deserialize fuel retval pre with
  | none => rfl
  | some q => simp [json_gobject_new_members, hskip q]

/-- With a `NULL` array the setter of the corner radii never returns: every
amount of fuel is used up. -/
theorem set_corner_radii_null_diverges :
    ∀ (fuel : Nat) (self : GmDisplayPanel Cutout),
      gm_display_panel_set_corner_radii fuel self none = none
  | 0, _ => rfl
  | fuel + 1, self => by
    simp [gm_display_panel_set_corner_radii, set_corner_radii_null_diverges fuel self]

/-- A member spelled with an underscore is applied like the property it
resolves to: in `{"border-radius": 9, "corner-radii": [1, 2, 3, 4],
"border_radius": 5}` the last member sets all four radii to 5. -/
theorem alias_member_is_applied :
    ∃ panel : GmDisplayPanel Unit,
      json_gobject_deserialize (fun _ => ()) 1
        (.object [("border-radius", .int 9),
          ("corner-radii", .array [.int 1, .int 2, .int 3, .int 4]),
          ("border_radius", .int 5)]) = some (some panel) ∧
      gm_display_panel_get_corner_radii panel = [5, 5, 5, 5] :=
  ⟨{ (gm_display_panel_new : GmDisplayPanel Unit) with corner_radii := ⟨5, 5, 5, 5⟩ },
    by rfl, by rfl⟩

/-! ## The claims -/

/-- C1: for non-negative `a b c d`, whenever the hook deserializes
`"corner-radii": [a, b, c, d]` successfully and the value it produced is set on
a panel through `gm_display_panel_set_property`, the setter returns, and on
the panel it leaves `gm_display_panel_get_corner_radii_array` and
`gm_display_panel_get_corner_radii` both give `a b c d` at the positions
top-left, top-right, bottom-right, bottom-left, and
`gm_display_panel_get_border_radius` gives `a`. -/
theorem corner_radii_deserialized_in_corner_order (cutout_deserialize : JsonNode → Cutout)
    (fuel : Nat) (self : GmDisplayPanel Cutout) (box : Option (List Int)) (a b c d : Int)
    (value : GValue Cutout) (ha : 0 ≤ a) (hb : 0 ≤ b) (hc : 0 ≤ c) (hd : 0 ≤ d)
    (hok : gm_display_panel_serializable_deserialize_property cutout_deserialize "corner-radii"
      (.boxed box) (.array [.int a, .int b, .int c, .int d]) = (true, value)) :
    ∃ panel, gm_display_panel_set_property (fuel + 1) self .PROP_CORNER_RADII value = some panel ∧
      (gm_display_panel_get_corner_radii_array panel).get GM_CORNER_POSITION_TOP_LEFT = a ∧
      (gm_display_panel_get_corner_radii_array panel).get GM_CORNER_POSITION_TOP_RIGHT = b ∧
      (gm_display_panel_get_corner_radii_array panel).get GM_CORNER_POSITION_BOTTOM_RIGHT = c ∧
      (gm_display_panel_get_corner_radii_array panel).get GM_CORNER_POSITION_BOTTOM_LEFT = d ∧
      gm_display_panel_get_corner_radii panel = [a, b, c, d] ∧
      gm_display_panel_get_border_radius panel = a := by
  rw [deserialize_corner_radii_four] at hok
  split at hok
  · rename_i hlt
    obtain ⟨h1, h2, h3, h4⟩ := hlt
    simp only [G_MAXINT] at h1 h2 h3 h4
    rw [gint64_to_int_of_int_range a (by omega) (by omega),
      gint64_to_int_of_int_range b (by omega) (by omega),
      gint64_to_int_of_int_range c (by omega) (by omega),
      gint64_to_int_of_int_range d (by omega) (by omega)] at hok
    have hv : value = .boxed (some [a, b, c, d]) := (Prod.mk.inj hok).2.symm
    subst hv
    refine ⟨{ self with corner_radii := ⟨a, b, c, d⟩ }, ?_, ?_⟩
    · simp [gm_display_panel_set_property, g_value_get_boxed, set_corner_radii_four]
    · simp [gm_display_panel_get_corner_radii_array, get_corner_radii_eq, IntArray4.toList,
        IntArray4.get, gm_display_panel_get_border_radius, GM_CORNER_POSITION_TOP_LEFT,
        GM_CORNER_POSITION_TOP_RIGHT, GM_CORNER_POSITION_BOTTOM_RIGHT,
        GM_CORNER_POSITION_BOTTOM_LEFT]
  · simp at hok

/-- Witness of C1 on the document of the test `corner_radii`: the array
`[10, 11, 12, 13]` applied to a new panel. -/
theorem corner_radii_deserialized_in_corner_order_witness :
    ∃ panel : GmDisplayPanel Unit,
      gm_display_panel_set_property 1 gm_display_panel_new .PROP_CORNER_RADII
        (.boxed (some [10, 11, 12, 13])) = some panel ∧
      (gm_display_panel_get_corner_radii_array panel).get GM_CORNER_POSITION_TOP_LEFT = 10 ∧
      (gm_display_panel_get_corner_radii_array panel).get GM_CORNER_POSITION_TOP_RIGHT = 11 ∧
      (gm_display_panel_get_corner_radii_array panel).get GM_CORNER_POSITION_BOTTOM_RIGHT = 12 ∧
      (gm_display_panel_get_corner_radii_array panel).get GM_CORNER_POSITION_BOTTOM_LEFT = 13 ∧
      gm_display_panel_get_corner_radii panel = [10, 11, 12, 13] ∧
      gm_display_panel_get_border_radius panel = 10 :=
  corner_radii_deserialized_in_corner_order (fun _ => ()) 0 gm_display_panel_new none
    10 11 12 13 (.boxed (some [10, 11, 12, 13])) (by decide) (by decide) (by decide) (by decide)
    (by rfl)

/-- C2: for every panel and every `R` with `0 ≤ R ≤ G_MAXINT`, writing the
deprecated border-radius property (through `g_object_set_property`, and so
through the member `"border-radius": R` of a document) returns and sets all
four corner radii to `R`: `gm_display_panel_get_corner_radii` then gives
`[R, R, R, R]`, of length 4, `gm_display_panel_get_border_radius` gives `R`,
and no other field of the panel has changed. -/
theorem border_radius_write_sets_all_corners (cutout_deserialize : JsonNode → Cutout)
    (fuel : Nat) (self : GmDisplayPanel Cutout) (R : Int) (h0 : 0 ≤ R) (hmax : R ≤ G_MAXINT) :
    ∃ panel,
      gm_display_panel_set_property fuel self .PROP_BORDER_RADIUS (.int R) = some panel ∧
      g_object_set_property fuel self ⟨"border-radius", .G_TYPE_INT, .PROP_BORDER_RADIUS⟩
        (.int R) = some panel ∧
      json_gobject_new_member cutout_deserialize fuel self ("border-radius", .int R)
        = some panel ∧
      gm_display_panel_get_corner_radii panel = [R, R, R, R] ∧
      (gm_display_panel_get_corner_radii panel).length = 4 ∧
      gm_display_panel_get_border_radius panel = R ∧
      panel.name = self.name ∧ panel.cutouts = self.cutouts ∧ panel.x_res = self.x_res ∧
      panel.y_res = self.y_res ∧ panel.width = self.width ∧ panel.height = self.height := by
  have hval : g_param_value_validate (GValue.int R : GValue Cutout) = false := by
    simp only [G_MAXINT] at hmax
    simp [g_param_value_validate, G_MAXINT]
    omega
  have hset : g_object_set_property fuel self
      ⟨"border-radius", .G_TYPE_INT, .PROP_BORDER_RADIUS⟩ (.int R)
        = some { self with corner_radii := ⟨R, R, R, R⟩ } := by
    simp [g_object_set_property, hval, gm_display_panel_set_property, g_value_get_int,
      set_border_radius_eq]
  have hnarrow : gint64_to_int R = R := by
    simp only [G_MAXINT] at hmax
    exact gint64_to_int_of_int_range R (by omega) (by omega)
  refine ⟨{ self with corner_radii := ⟨R, R, R, R⟩ }, ?_, hset, ?_, ?_⟩
  · simp [gm_display_panel_set_property, g_value_get_int, set_border_radius_eq]
  · simp only [json_gobject_new_member, find_property_border_radius]
    simp [gm_display_panel_serializable_deserialize_property,
      json_serializable_default_deserialize_property, json_deserialize_pspec, g_value_init,
      hnarrow, hset]
  · simp [get_corner_radii_eq, IntArray4.toList, gm_display_panel_get_border_radius,
      IntArray4.get]

/-- Witness of C2: the value 10 of the test `parse`, written on a new panel. -/
theorem border_radius_write_sets_all_corners_witness :
    ∃ panel : GmDisplayPanel Unit,
      gm_display_panel_set_property 0 gm_display_panel_new .PROP_BORDER_RADIUS (.int 10)
        = some panel ∧
      g_object_set_property 0 gm_display_panel_new
        ⟨"border-radius", .G_TYPE_INT, .PROP_BORDER_RADIUS⟩ (.int 10) = some panel ∧
      json_gobject_new_member (fun _ => ()) 0 gm_display_panel_new ("border-radius", .int 10)
        = some panel ∧
      gm_display_panel_get_corner_radii panel = [10, 10, 10, 10] ∧
      (gm_display_panel_get_corner_radii panel).length = 4 ∧
      gm_display_panel_get_border_radius panel = 10 ∧
      panel.name = none ∧ panel.cutouts = some [] ∧ panel.x_res = 0 ∧
      panel.y_res = 0 ∧ panel.width = 0 ∧ panel.height = 0 :=
  border_radius_write_sets_all_corners (fun _ => ()) 0 gm_display_panel_new 10
    (by decide) (by decide)

/-- C4: for every JSON array whose length is not 4, the hook fails on it as
the "corner-radii" field (`FALSE`) and returns the value it was given
untouched; the generic mapping cannot fill a `GArray` either, so the member
loop sets nothing on the panel. -/
theorem corner_radii_wrong_length_fails (cutout_deserialize : JsonNode → Cutout) (fuel : Nat)
    (retval : GmDisplayPanel Cutout) (value : GValue Cutout) (elements : List JsonNode)
    (hlen : elements.length ≠ 4) :
    gm_display_panel_serializable_deserialize_property cutout_deserialize "corner-radii" value
        (.array elements) = (false, value) ∧
      json_gobject_new_member cutout_deserialize fuel retval ("corner-radii", .array elements)
        = some retval := by
  have hhook : ∀ v : GValue Cutout,
      gm_display_panel_serializable_deserialize_property cutout_deserialize "corner-radii" v
        (.array elements) = (false, v) := by
    intro v
    simp [gm_display_panel_serializable_deserialize_property, JSON_NODE_TYPE,
      json_node_get_array, hlen]
  refine ⟨hhook value, ?_⟩
  simp only [json_gobject_new_member, find_property_corner_radii, hhook]
  simp [json_deserialize_pspec, g_value_init]

/-- Witness of C4: the three element array `[1, 2, 3]`. -/
theorem corner_radii_wrong_length_fails_witness :
    gm_display_panel_serializable_deserialize_property (fun _ => ()) "corner-radii"
        (.boxed none) (.array [.int 1, .int 2, .int 3]) = (false, .boxed none) ∧
      json_gobject_new_member (fun _ => ()) 1 gm_display_panel_new
        ("corner-radii", .array [.int 1, .int 2, .int 3]) = some gm_display_panel_new :=
  corner_radii_wrong_length_fails (fun _ => ()) 1 gm_display_panel_new (.boxed none)
    [.int 1, .int 2, .int 3] (by decide)

/-- C7: for every JSON array with at least one element that is not a JSON
object, at any position, the hook fails on it as the "cutouts" field (`FALSE`)
and returns the value it was given untouched, so no store is handed back, not
even one holding the cutouts converted before the offending element; the
generic mapping fails as well and the member loop sets nothing on the
panel. -/
theorem cutouts_with_non_object_fails (cutout_deserialize : JsonNode → Cutout) (fuel : Nat)
    (retval : GmDisplayPanel Cutout) (value : GValue Cutout) (elements : List JsonNode)
    (hbad : ∃ e ∈ elements, ∀ members, e ≠ JsonNode.object members) :
    gm_display_panel_serializable_deserialize_property cutout_deserialize "cutouts" value
        (.array elements) = (false, value) ∧
      json_gobject_new_member cutout_deserialize fuel retval ("cutouts", .array elements)
        = some retval := by
  have hloop : deserialize_property_cutouts_loop cutout_deserialize elements [] = none := by
    apply cutouts_loop_of_non_object
    obtain ⟨e, he, hne⟩ := hbad
    refine ⟨e, he, ?_⟩
    cases hobj : JSON_NODE_HOLDS_OBJECT e
    · rfl
    · obtain ⟨members, hm⟩ := (holds_object_iff e).mp hobj
      exact absurd hm (hne members)
  have hhook : ∀ v : GValue Cutout,
      gm_display_panel_serializable_deserialize_property cutout_deserialize "cutouts" v
        (.array elements) = (false, v) := by
    intro v
    simp [gm_display_panel_serializable_deserialize_property, JSON_NODE_TYPE,
      json_node_get_array, hloop]
  refine ⟨hhook value, ?_⟩
  simp only [json_gobject_new_member, find_property_cutouts, hhook]
  simp [json_deserialize_pspec, g_value_init]

/-- Witness of C7: an object followed by a number. -/
theorem cutouts_with_non_object_fails_witness :
    gm_display_panel_serializable_deserialize_property (fun n => n) "cutouts" (.object none)
        (.array [.object [("name", .string "notch")], .int 5]) = (false, .object none) ∧
      json_gobject_new_member (fun n => n) 1 gm_display_panel_new
        ("cutouts", .array [.object [("name", .string "notch")], .int 5])
        = some gm_display_panel_new :=
  cutouts_with_non_object_fails (fun n => n) 1 gm_display_panel_new (.object none)
    [.object [("name", .string "notch")], .int 5]
    ⟨.int 5, by simp, by intro members h; cases h⟩

/-- C8: for every JSON array of `n ≥ 0` JSON objects, the hook succeeds on it
as the "cutouts" field and hands back a store of exactly `n` items whose item
`i` is the cutout deserialized from element `i`; once the value is set on a
panel, `gm_display_panel_get_cutouts` gives that store. -/
theorem cutouts_of_objects_in_order (cutout_deserialize : JsonNode → Cutout) (fuel : Nat)
    (self : GmDisplayPanel Cutout) (store : Option (List Cutout)) (elements : List JsonNode)
    (hobj : ∀ e ∈ elements, ∃ members, e = JsonNode.object members) :
    ∃ cutouts : List Cutout,
      gm_display_panel_serializable_deserialize_property cutout_deserialize "cutouts"
        (.object store) (.array elements) = (true, .object (some cutouts)) ∧
      cutouts.length = elements.length ∧
      (∀ i, (hi : i < elements.length) → cutouts[i]? = some (cutout_deserialize elements[i])) ∧
      ∃ panel, gm_display_panel_set_property fuel self .PROP_CUTOUTS (.object (some cutouts))
          = some panel ∧
        gm_display_panel_get_cutouts panel = some cutouts := by
  have hloop : deserialize_property_cutouts_loop cutout_deserialize elements []
      = some (elements.map cutout_deserialize) := by
    have h := cutouts_loop_of_objects cutout_deserialize elements []
      (fun e he => (holds_object_iff e).mpr (hobj e he))
    simpa using h
  refine ⟨elements.map cutout_deserialize, ?_, by simp, ?_, ?_⟩
  · simp [gm_display_panel_serializable_deserialize_property, JSON_NODE_TYPE,
      json_node_get_array, hloop, g_value_set_object]
  · intro i hi
    simp [List.getElem?_map, List.getElem?_eq_getElem hi]
  · exact ⟨{ self with cutouts := some (elements.map cutout_deserialize) },
      by simp [gm_display_panel_set_property, g_value_get_object],
      by simp [gm_display_panel_get_cutouts]⟩

/-- Witness of C8: the one cutout of the test `parse`, with the JSON object
itself standing for the cutout. -/
theorem cutouts_of_objects_in_order_witness :
    ∃ cutouts : List JsonNode,
      gm_display_panel_serializable_deserialize_property (fun n => n) "cutouts"
        (.object none)
        (.array [.object [("name", .string "notch"),
          ("path", .string "M 455 0 V 79 H 625 V 0 Z")]]) = (true, .object (some cutouts)) ∧
      cutouts.length = 1 ∧
      (∀ i, (hi : i < 1) → cutouts[i]? = some (([JsonNode.object [("name", .string "notch"),
          ("path", .string "M 455 0 V 79 H 625 V 0 Z")]])[i])) ∧
      ∃ panel, gm_display_panel_set_property 0 gm_display_panel_new .PROP_CUTOUTS
          (.object (some cutouts)) = some panel ∧
        gm_display_panel_get_cutouts panel = some cutouts :=
  cutouts_of_objects_in_order (fun n => n) 0 gm_display_panel_new none
    [.object [("name", .string "notch"), ("path", .string "M 455 0 V 79 H 625 V 0 Z")]]
    (by intro e he; simp at he; exact ⟨_, he⟩)


/-- C3: for every panel whose four corner radii all equal `R`, with
`0 ≤ R ≤ G_MAXINT`, and whatever its name, resolution, size and cutouts,
serializing the panel with `json_gobject_serialize` gives an object that holds
the member `"corner-radii": [R, R, R, R]`, and deserializing that object with
`json_gobject_deserialize` returns a panel on which
`gm_display_panel_get_corner_radii` gives `[R, R, R, R]` and
`gm_display_panel_get_border_radius` gives `R`. Below `G_MAXINT` the
"corner-radii" member carries the radii by itself: the deserialization hook
turns it back into `[R, R, R, R]`, and applied to any panel it leaves exactly
these radii. (At `R = G_MAXINT` the hook refuses that member and the radii
come back through the "border-radius" member of the same object.) -/
theorem round_trip_uniform_radii (cutout_serialize : Cutout → JsonNode)
    (cutout_deserialize : JsonNode → Cutout) (fuel : Nat) (self : GmDisplayPanel Cutout)
    (R : Int) (h0 : 0 ≤ R) (hmax : R ≤ G_MAXINT) (hrad : self.corner_radii = ⟨R, R, R, R⟩) :
    ∃ members panel,
      json_gobject_serialize cutout_serialize self = .object members ∧
      ("corner-radii", JsonNode.array [.int R, .int R, .int R, .int R]) ∈ members ∧
      json_gobject_deserialize cutout_deserialize (fuel + 1) (.object members)
        = some (some panel) ∧
      gm_display_panel_get_corner_radii panel = [R, R, R, R] ∧
      gm_display_panel_get_border_radius panel = R ∧
      (R < G_MAXINT → ∀ (box : Option (List Int)) (other : GmDisplayPanel Cutout),
        gm_display_panel_serializable_deserialize_property cutout_deserialize "corner-radii"
            (.boxed box) (.array [.int R, .int R, .int R, .int R])
          = (true, .boxed (some [R, R, R, R])) ∧
        ∃ applied,
          json_gobject_new_member cutout_deserialize (fuel + 1) other
            ("corner-radii", .array [.int R, .int R, .int R, .int R]) = some applied ∧
          gm_display_panel_get_corner_radii applied = [R, R, R, R] ∧
          gm_display_panel_get_border_radius applied = R) := by
  obtain ⟨front, hdump, hfront⟩ := dump_uniform_radii cutout_serialize self R hrad
  obtain ⟨mid, hmid⟩ := members_return cutout_deserialize fuel front
    (gm_display_panel_new : GmDisplayPanel Cutout)
  have hmidrad : mid.corner_radii = ⟨0, 0, 0, 0⟩ :=
    members_keep_radii cutout_deserialize (fuel + 1) front _ mid
      (fun m hm => other_names_resolve m.1 (hfront m hm)) hmid
  have hnarrow : gint64_to_int R = R := by
    simp only [G_MAXINT] at hmax
    exact gint64_to_int_of_int_range R (by omega) (by omega)
  refine ⟨json_gobject_dump cutout_serialize self, { mid with corner_radii := ⟨R, R, R, R⟩ },
    rfl, ?_, ?_, ?_, ?_, ?_⟩
  · rw [hdump]
    simp
  · simp only [json_gobject_deserialize, hdump, members_append, hmid, Option.some_bind]
    by_cases hR : R = 0
    · subst hR
      have hcr := member_corner_radii_accepted cutout_deserialize fuel mid 0 0 0 0
        (by decide)
      simp only [hnarrow] at hcr
      simp [json_gobject_new_members, hcr]
    · have hbr := member_border_radius cutout_deserialize (fuel + 1) mid R h0 hmax
      by_cases hlt : R < G_MAXINT
      · have hcr := member_corner_radii_accepted cutout_deserialize fuel
          { mid with corner_radii := ⟨R, R, R, R⟩ } R R R R ⟨hlt, hlt, hlt, hlt⟩
        simp only [hnarrow] at hcr
        simp [json_gobject_new_members, hR, hbr, hcr]
      · have hcr := member_corner_radii_refused cutout_deserialize (fuel + 1)
          { mid with corner_radii := ⟨R, R, R, R⟩ } R R R R (by simp [hlt])
        simp [json_gobject_new_members, hR, hbr, hcr]
  · simp [get_corner_radii_eq, IntArray4.toList]
  · simp [gm_display_panel_get_border_radius, IntArray4.get]
  · intro hlt box other
    refine ⟨corner_radii_below_maxint_accepted cutout_deserialize box R R R R
      ⟨h0, hlt⟩ ⟨h0, hlt⟩ ⟨h0, hlt⟩ ⟨h0, hlt⟩, { other with corner_radii := ⟨R, R, R, R⟩ },
      ?_, ?_, ?_⟩
    · have hcr := member_corner_radii_accepted cutout_deserialize fuel other R R R R
        ⟨hlt, hlt, hlt, hlt⟩
      simpa only [hnarrow] using hcr
    · simp [get_corner_radii_eq, IntArray4.toList]
    · simp [gm_display_panel_get_border_radius, IntArray4.get]

/-- Witness of C3: a new panel given the uniform radius 10. -/
theorem round_trip_uniform_radii_witness :
    ∃ members, ∃ panel : GmDisplayPanel JsonNode,
      json_gobject_serialize (fun c => c)
        { (gm_display_panel_new : GmDisplayPanel JsonNode) with
          corner_radii := ⟨10, 10, 10, 10⟩ } = .object members ∧
      ("corner-radii", JsonNode.array [.int 10, .int 10, .int 10, .int 10]) ∈ members ∧
      json_gobject_deserialize (fun n => n) 1 (.object members) = some (some panel) ∧
      gm_display_panel_get_corner_radii panel = [10, 10, 10, 10] ∧
      gm_display_panel_get_border_radius panel = 10 ∧
      ((10 : Int) < G_MAXINT → ∀ (box : Option (List Int)) (other : GmDisplayPanel JsonNode),
        gm_display_panel_serializable_deserialize_property (fun n => n) "corner-radii"
            (.boxed box) (.array [.int 10, .int 10, .int 10, .int 10])
          = (true, .boxed (some [10, 10, 10, 10])) ∧
        ∃ applied,
          json_gobject_new_member (fun n => n) 1 other
            ("corner-radii", .array [.int 10, .int 10, .int 10, .int 10]) = some applied ∧
          gm_display_panel_get_corner_radii applied = [10, 10, 10, 10] ∧
          gm_display_panel_get_border_radius applied = 10) :=
  round_trip_uniform_radii (fun c => c) (fun n => n) 0
    { (gm_display_panel_new : GmDisplayPanel JsonNode) with corner_radii := ⟨10, 10, 10, 10⟩ }
    10 (by decide) (by decide) rfl

/-- C5, evaluated at `"corner-radii": [-1, 0, 0, 0]`: the hook accepts the
array although its first element is negative and hands back the four values
as they are, and `gm_display_panel_new_from_data` on a document with this one
member returns a panel whose top-left radius is -1. -/
theorem negative_corner_radius_accepted (cutout_deserialize : JsonNode → Cutout) (fuel : Nat) :
    gm_display_panel_serializable_deserialize_property cutout_deserialize "corner-radii"
        (g_value_init .G_TYPE_ARRAY) (.array [.int (-1), .int 0, .int 0, .int 0])
      = (true, .boxed (some [-1, 0, 0, 0])) ∧
    ∃ panel,
      gm_display_panel_new_from_data cutout_deserialize (fuel + 1)
        (some (.object [("corner-radii", .array [.int (-1), .int 0, .int 0, .int 0])]))
        = some (some panel) ∧
      gm_display_panel_get_corner_radii panel = [-1, 0, 0, 0] ∧
      (gm_display_panel_get_corner_radii_array panel).get GM_CORNER_POSITION_TOP_LEFT < 0 := by
  have hm1 : gint64_to_int (-1) = -1 := by decide
  have h0 : gint64_to_int 0 = 0 := by decide
  constructor
  · rw [g_value_init, deserialize_corner_radii_four]
    simp [G_MAXINT, hm1, h0]
  · have hcr := member_corner_radii_accepted cutout_deserialize fuel
      (gm_display_panel_new : GmDisplayPanel Cutout) (-1) 0 0 0 (by decide)
    rw [hm1, h0] at hcr
    refine ⟨{ (gm_display_panel_new : GmDisplayPanel Cutout) with
      corner_radii := ⟨-1, 0, 0, 0⟩ }, ?_, ?_, ?_⟩
    · simp [gm_display_panel_new_from_data, json_gobject_deserialize,
        json_gobject_new_members, hcr]
    · simp [get_corner_radii_eq, IntArray4.toList]
    · simp [gm_display_panel_get_corner_radii_array, IntArray4.get,
        GM_CORNER_POSITION_TOP_LEFT]

/-- C6, evaluated at `"corner-radii": [2147483647, 0, 0, 0]`: the hook refuses
the array (`FALSE`, the value untouched) although every element is within
`0 .. G_MAXINT`, and `gm_display_panel_new_from_data` on a document with this
one member returns a panel whose corner radii are all still 0. -/
theorem corner_radius_at_maxint_refused (cutout_deserialize : JsonNode → Cutout) (fuel : Nat)
    (box : Option (List Int)) :
    gm_display_panel_serializable_deserialize_property cutout_deserialize "corner-radii"
        (.boxed box) (.array [.int G_MAXINT, .int 0, .int 0, .int 0]) = (false, .boxed box) ∧
    ∃ panel,
      gm_display_panel_new_from_data cutout_deserialize fuel
        (some (.object [("corner-radii", .array [.int G_MAXINT, .int 0, .int 0, .int 0])]))
        = some (some panel) ∧
      gm_display_panel_get_corner_radii panel = [0, 0, 0, 0] := by
  constructor
  · rw [deserialize_corner_radii_four]
    simp
  · have hcr := member_corner_radii_refused cutout_deserialize fuel
      (gm_display_panel_new : GmDisplayPanel Cutout) G_MAXINT 0 0 0 (by simp)
    refine ⟨gm_display_panel_new, ?_, ?_⟩
    · simp [gm_display_panel_new_from_data, json_gobject_deserialize,
        json_gobject_new_members, hcr]
    · simp [get_corner_radii_eq, IntArray4.toList, gm_display_panel_new]

/-- C9, evaluated at `"cutouts": null`: the hook accepts the null node and
hands back a `NULL` object; set on the panel, it replaces the store, so that
after `gm_display_panel_new_from_data` on a document with this one member
`gm_display_panel_get_cutouts` gives `NULL`, whereas it gives an empty store
on a new panel and after a document without the key. -/
theorem cutouts_null_clears_store (cutout_deserialize : JsonNode → Cutout) (fuel : Nat) :
    gm_display_panel_serializable_deserialize_property cutout_deserialize "cutouts"
        (g_value_init .G_TYPE_LIST_STORE) .null = (true, .object none) ∧
    (∃ panel,
      gm_display_panel_new_from_data cutout_deserialize fuel
        (some (.object [("cutouts", .null)])) = some (some panel) ∧
      gm_display_panel_get_cutouts panel = none) ∧
    (∃ panel,
      gm_display_panel_new_from_data cutout_deserialize fuel (some (.object []))
        = some (some panel) ∧
      gm_display_panel_get_cutouts panel = some []) ∧
    gm_display_panel_get_cutouts (gm_display_panel_new : GmDisplayPanel Cutout) = some [] := by
  have hhook : gm_display_panel_serializable_deserialize_property cutout_deserialize "cutouts"
      (g_value_init .G_TYPE_LIST_STORE) .null = (true, .object none) := by
    simp [gm_display_panel_serializable_deserialize_property, JSON_NODE_TYPE,
      g_value_set_pointer, g_value_init]
  refine ⟨hhook, ⟨{ (gm_display_panel_new : GmDisplayPanel Cutout) with cutouts := none },
    ?_, rfl⟩, ⟨gm_display_panel_new, rfl, rfl⟩, rfl⟩
  simp only [gm_display_panel_new_from_data, json_gobject_deserialize,
    json_gobject_new_members, json_gobject_new_member, find_property_cutouts, hhook]
  simp [g_object_set_property, g_param_value_validate, gm_display_panel_set_property,
    g_value_get_object]

/-- Counterexample to C10: in the document
`{"corner-radii": [1, 2, 3, 4], "border-radius": 9}` both keys are valid, yet
the panel ends with the radii `[9, 9, 9, 9]`, not `[1, 2, 3, 4]`. -/
theorem corner_radii_precedence_counterexample :
    ∃ panel : GmDisplayPanel Unit,
      json_gobject_deserialize (fun _ => ()) 1
        (.object [("corner-radii", .array [.int 1, .int 2, .int 3, .int 4]),
          ("border-radius", .int 9)]) = some (some panel) ∧
      gm_display_panel_get_corner_radii panel = [9, 9, 9, 9] ∧
      gm_display_panel_get_corner_radii panel ≠ [1, 2, 3, 4] := by
  refine ⟨{ (gm_display_panel_new : GmDisplayPanel Unit) with corner_radii := ⟨9, 9, 9, 9⟩ },
    ?_, ?_, ?_⟩
  · have hcr := member_corner_radii_accepted (fun _ => ()) 0
      (gm_display_panel_new : GmDisplayPanel Unit) 1 2 3 4 (by decide)
    have hbr := member_border_radius (fun _ => ()) 1
      { (gm_display_panel_new : GmDisplayPanel Unit) with
        corner_radii := ⟨gint64_to_int 1, gint64_to_int 2, gint64_to_int 3, gint64_to_int 4⟩ }
      9 (by decide) (by decide)
    simp [json_gobject_deserialize, json_gobject_new_members, hcr, hbr]
  · simp [get_corner_radii_eq, IntArray4.toList]
  · simp [get_corner_radii_eq, IntArray4.toList]

/-- C10 as amended: of the two keys the one that comes later in the document
decides. For `a b c d` in `0 .. G_MAXINT - 1`, `R` in `0 .. G_MAXINT` and a
document holding both `"corner-radii": [a, b, c, d]` and `"border-radius": R`,
with no member after them whose name resolves to either property (under any
spelling `g_object_class_find_property` accepts), the panel's corner radii are
`[a, b, c, d]` when "border-radius" comes first and `[R, R, R, R]` when
"corner-radii" comes first. -/
theorem later_radius_key_decides (cutout_deserialize : JsonNode → Cutout) (fuel : Nat)
    (pre mid post : List (String × JsonNode)) (a b c d R : Int)
    (ha : 0 ≤ a ∧ a < G_MAXINT) (hb : 0 ≤ b ∧ b < G_MAXINT) (hc : 0 ≤ c ∧ c < G_MAXINT)
    (hd : 0 ≤ d ∧ d < G_MAXINT) (hR : 0 ≤ R ∧ R ≤ G_MAXINT)
    (hpost : ∀ m ∈ post, ∀ pspec, g_object_class_find_property m.1 = some pspec →
      pspec.param_id ≠ .PROP_BORDER_RADIUS ∧ pspec.param_id ≠ .PROP_CORNER_RADII) :
    (∃ panel,
      json_gobject_deserialize cutout_deserialize (fuel + 1)
        (.object (pre ++ ("border-radius", .int R) :: mid
          ++ ("corner-radii", .array [.int a, .int b, .int c, .int d]) :: post))
        = some (some panel) ∧
      gm_display_panel_get_corner_radii panel = [a, b, c, d]) ∧
    (∃ panel,
      json_gobject_deserialize cutout_deserialize (fuel + 1)
        (.object (pre ++ ("corner-radii", .array [.int a, .int b, .int c, .int d]) :: mid
          ++ ("border-radius", .int R) :: post))
        = some (some panel) ∧
      gm_display_panel_get_corner_radii panel = [R, R, R, R]) := by
  have hna : gint64_to_int a = a := by
    have := ha.2
    simp only [G_MAXINT] at this
    exact gint64_to_int_of_int_range a (by omega) (by omega)
  have hnb : gint64_to_int b = b := by
    have := hb.2
    simp only [G_MAXINT] at this
    exact gint64_to_int_of_int_range b (by omega) (by omega)
  have hnc : gint64_to_int c = c := by
    have := hc.2
    simp only [G_MAXINT] at this
    exact gint64_to_int_of_int_range c (by omega) (by omega)
  have hnd : gint64_to_int d = d := by
    have := hd.2
    simp only [G_MAXINT] at this
    exact gint64_to_int_of_int_range d (by omega) (by omega)
  constructor
  · obtain ⟨panel, hpanel, hrad⟩ := members_last_radius_member cutout_deserialize fuel
      (pre ++ ("border-radius", .int R) :: mid) post
      ("corner-radii", .array [.int a, .int b, .int c, .int d]) ⟨a, b, c, d⟩
      gm_display_panel_new
      (fun q => ⟨_, member_corner_radii_accepted cutout_deserialize fuel q a b c d
        ⟨ha.2, hb.2, hc.2, hd.2⟩, by simp [hna, hnb, hnc, hnd]⟩) hpost
    refine ⟨panel, ?_, ?_⟩
    · simp only [List.append_assoc, List.cons_append] at hpanel
      simp [json_gobject_deserialize, hpanel]
    · simp [get_corner_radii_eq, hrad, IntArray4.toList]
  · obtain ⟨panel, hpanel, hrad⟩ := members_last_radius_member cutout_deserialize fuel
      (pre ++ ("corner-radii", .array [.int a, .int b, .int c, .int d]) :: mid) post
      ("border-radius", .int R) ⟨R, R, R, R⟩ gm_display_panel_new
      (fun q => ⟨_, member_border_radius cutout_deserialize (fuel + 1) q R hR.1 hR.2, rfl⟩)
      hpost
    refine ⟨panel, ?_, ?_⟩
    · simp only [List.append_assoc, List.cons_append] at hpanel
      simp [json_gobject_deserialize, hpanel]
    · simp [get_corner_radii_eq, hrad, IntArray4.toList]

/-- Witness of C10 as amended: the two keys alone, in both orders. -/
theorem later_radius_key_decides_witness :
    (∃ panel : GmDisplayPanel Unit,
      json_gobject_deserialize (fun _ => ()) 1
        (.object ([] ++ ("border-radius", .int 9) :: []
          ++ ("corner-radii", .array [.int 1, .int 2, .int 3, .int 4]) :: []))
        = some (some panel) ∧
      gm_display_panel_get_corner_radii panel = [1, 2, 3, 4]) ∧
    (∃ panel : GmDisplayPanel Unit,
      json_gobject_deserialize (fun _ => ()) 1
        (.object ([] ++ ("corner-radii", .array [.int 1, .int 2, .int 3, .int 4]) :: []
          ++ ("border-radius", .int 9) :: []))
        = some (some panel) ∧
      gm_display_panel_get_corner_radii panel = [9, 9, 9, 9]) :=
  later_radius_key_decides (fun _ => ()) 0 [] [] [] 1 2 3 4 9
    (by decide) (by decide) (by decide) (by decide) (by decide) (by simp)


/-- Counterexample to C11: the panel with the corner radii `10 11 12 13`
serializes to an object that does contain a "border-radius" member, with the
value 10. -/
theorem border_radius_member_emitted :
    ∃ members,
      json_gobject_serialize (fun (_ : Unit) => JsonNode.object [])
        { (gm_display_panel_new : GmDisplayPanel Unit) with
          corner_radii := ⟨10, 11, 12, 13⟩ } = .object members ∧
      ("border-radius", JsonNode.int 10) ∈ members := by
  obtain ⟨front, hdump, -⟩ := dump_radii_members (fun (_ : Unit) => JsonNode.object [])
    { (gm_display_panel_new : GmDisplayPanel Unit) with corner_radii := ⟨10, 11, 12, 13⟩ }
  refine ⟨_, rfl, ?_⟩
  rw [hdump]
  simp

/-- C11 as amended: for every panel the serialized object has exactly one
"corner-radii" member, the array of the four stored radii in the order
top-left, top-right, bottom-right, bottom-left; it has a "border-radius"
member exactly when the top-left radius is not 0, and that member holds the
top-left radius. -/
theorem serialized_radius_members (cutout_serialize : Cutout → JsonNode)
    (self : GmDisplayPanel Cutout) :
    ∃ members,
      json_gobject_serialize cutout_serialize self = .object members ∧
      ("corner-radii", JsonNode.array
        [.int ((gm_display_panel_get_corner_radii_array self).get GM_CORNER_POSITION_TOP_LEFT),
         .int ((gm_display_panel_get_corner_radii_array self).get GM_CORNER_POSITION_TOP_RIGHT),
         .int ((gm_display_panel_get_corner_radii_array self).get
           GM_CORNER_POSITION_BOTTOM_RIGHT),
         .int ((gm_display_panel_get_corner_radii_array self).get
           GM_CORNER_POSITION_BOTTOM_LEFT)]) ∈ members ∧
      (∀ node, ("corner-radii", node) ∈ members → node = JsonNode.array
        [.int ((gm_display_panel_get_corner_radii_array self).get GM_CORNER_POSITION_TOP_LEFT),
         .int ((gm_display_panel_get_corner_radii_array self).get GM_CORNER_POSITION_TOP_RIGHT),
         .int ((gm_display_panel_get_corner_radii_array self).get
           GM_CORNER_POSITION_BOTTOM_RIGHT),
         .int ((gm_display_panel_get_corner_radii_array self).get
           GM_CORNER_POSITION_BOTTOM_LEFT)]) ∧
      ((∃ node, ("border-radius", node) ∈ members)
        ↔ gm_display_panel_get_border_radius self ≠ 0) ∧
      (∀ node, ("border-radius", node) ∈ members
        → node = JsonNode.int (gm_display_panel_get_border_radius self)) := by
  obtain ⟨front, hdump, hfront⟩ := dump_radii_members cutout_serialize self
  have hnb : ∀ node, ("border-radius", node) ∉ front := fun node h => by
    have := hfront _ h
    simp at this
  have hnc : ∀ node, ("corner-radii", node) ∉ front := fun node h => by
    have := hfront _ h
    simp at this
  refine ⟨json_gobject_dump cutout_serialize self, rfl, ?_, ?_, ?_, ?_⟩
  · rw [hdump]
    simp [gm_display_panel_get_corner_radii_array, IntArray4.get, GM_CORNER_POSITION_TOP_LEFT,
      GM_CORNER_POSITION_TOP_RIGHT, GM_CORNER_POSITION_BOTTOM_RIGHT,
      GM_CORNER_POSITION_BOTTOM_LEFT]
  · intro node hnode
    rw [hdump] at hnode
    by_cases h0 : self.corner_radii.e0 = 0 <;>
      simpa [h0, hnc, gm_display_panel_get_corner_radii_array, IntArray4.get,
        GM_CORNER_POSITION_TOP_LEFT, GM_CORNER_POSITION_TOP_RIGHT,
        GM_CORNER_POSITION_BOTTOM_RIGHT, GM_CORNER_POSITION_BOTTOM_LEFT] using hnode
  · rw [hdump]
    by_cases h0 : self.corner_radii.e0 = 0 <;>
      simp [h0, hnb, gm_display_panel_get_border_radius, IntArray4.get]
  · intro node hnode
    rw [hdump] at hnode
    by_cases h0 : self.corner_radii.e0 = 0
    · simp [h0, hnb] at hnode
    · simpa [h0, hnb, gm_display_panel_get_border_radius, IntArray4.get] using hnode

/-- Counterexample to C12: in the document
`{"x-res": 1080, "corner-radii": [1, 2, 3]}` the "corner-radii" array has the
wrong length, yet `gm_display_panel_new_from_data` returns a panel, populated
from the other field (`x-res` is 1080) and with the corner radii left at 0. -/
theorem invalid_field_still_yields_panel :
    ∃ panel : GmDisplayPanel Unit,
      gm_display_panel_new_from_data (fun _ => ()) 1
        (some (.object [("x-res", .int 1080),
          ("corner-radii", .array [.int 1, .int 2, .int 3])])) = some (some panel) ∧
      gm_display_panel_get_x_res panel = 1080 ∧
      gm_display_panel_get_corner_radii panel = [0, 0, 0, 0] :=
  ⟨{ (gm_display_panel_new : GmDisplayPanel Unit) with x_res := 1080 }, by rfl, by rfl, by rfl⟩

/-- C12 as amended: a member that violates the rule of its field is skipped,
and a panel is returned all the same. For a document in which "corner-radii"
is no array, or an array of a length other than 4, or four integers one of
which is above `G_MAXINT`, or in which "cutouts" is an array with an element
that is no object, `gm_display_panel_new_from_data` returns the very panel it
returns for the document without that member. -/
theorem invalid_field_is_skipped (cutout_deserialize : JsonNode → Cutout) (fuel : Nat)
    (pre post : List (String × JsonNode)) (name : String) (node : JsonNode)
    (hbad :
      (name = "corner-radii" ∧
        ((∀ elements, node ≠ JsonNode.array elements) ∨
         (∃ elements, node = JsonNode.array elements ∧ elements.length ≠ 4) ∨
         (∃ a b c d, node = JsonNode.array [.int a, .int b, .int c, .int d] ∧
           (G_MAXINT < a ∨ G_MAXINT < b ∨ G_MAXINT < c ∨ G_MAXINT < d)))) ∨
      (name = "cutouts" ∧
        ∃ elements, node = JsonNode.array elements ∧
          ∃ e ∈ elements, ∀ members, e ≠ JsonNode.object members)) :
    ∃ panel,
      gm_display_panel_new_from_data cutout_deserialize (fuel + 1)
        (some (.object (pre ++ (name, node) :: post))) = some (some panel) ∧
      gm_display_panel_new_from_data cutout_deserialize (fuel + 1)
        (some (.object (pre ++ post))) = some (some panel) := by
  have hskip : ∀ q : GmDisplayPanel Cutout,
      json_gobject_new_member cutout_deserialize (fuel + 1) q (name, node) = some q := by
    intro q
    rcases hbad with ⟨rfl, h | ⟨elements, rfl, hlen⟩ | ⟨a, b, c, d, rfl, hmax⟩⟩ |
      ⟨rfl, elements, rfl, helem⟩
    · exact member_corner_radii_not_array cutout_deserialize _ q node h
    · exact member_corner_radii_wrong_length cutout_deserialize _ q elements hlen
    · apply member_corner_radii_refused
      rintro ⟨h1, h2, h3, h4⟩
      rcases hmax with h | h | h | h <;> omega
    · exact member_cutouts_non_object cutout_deserialize _ q elements helem
  obtain ⟨panel, hpanel⟩ := members_return cutout_deserialize fuel (pre ++ post)
    (gm_display_panel_new : GmDisplayPanel Cutout)
  refine ⟨panel, ?_, ?_⟩
  · simp [gm_display_panel_new_from_data, json_gobject_deserialize,
      members_skip cutout_deserialize (fuel + 1) pre post (name, node) _ hskip, hpanel]
  · simp [gm_display_panel_new_from_data, json_gobject_deserialize, hpanel]

/-- Witness of C12 as amended: `{"x-res": 1080, "corner-radii": [1, 2, 3]}`
gives the panel that `{"x-res": 1080}` gives. -/
theorem invalid_field_is_skipped_witness :
    ∃ panel : GmDisplayPanel Unit,
      gm_display_panel_new_from_data (fun _ => ()) 1
        (some (.object ([("x-res", .int 1080)]
          ++ ("corner-radii", .array [.int 1, .int 2, .int 3]) :: []))) = some (some panel) ∧
      gm_display_panel_new_from_data (fun _ => ()) 1
        (some (.object ([("x-res", .int 1080)] ++ []))) = some (some panel) :=
  invalid_field_is_skipped (fun _ => ()) 0 [("x-res", .int 1080)] [] "corner-radii"
    (.array [.int 1, .int 2, .int 3])
    (Or.inl ⟨rfl, Or.inr (Or.inl ⟨[.int 1, .int 2, .int 3], rfl, by decide⟩)⟩)

/-- C13, evaluated at a `NULL` array and at an empty array: the setter
`gm_display_panel_set_corner_radii` calls itself with `NULL` again and again
and never returns, whatever the fuel, and so does
`gm_display_panel_set_property` for the "corner-radii" property; the corner
radii are never reset. -/
theorem set_corner_radii_null_never_returns (fuel : Nat) (self : GmDisplayPanel Cutout) :
    gm_display_panel_set_corner_radii fuel self none = none ∧
    gm_display_panel_set_corner_radii fuel self (some []) = none ∧
    gm_display_panel_set_property fuel self .PROP_CORNER_RADII (.boxed none) = none ∧
    gm_display_panel_set_property fuel self .PROP_CORNER_RADII (.boxed (some [])) = none := by
  have hnull := set_corner_radii_null_diverges fuel self
  have hempty : gm_display_panel_set_corner_radii fuel self (some []) = none := by
    cases fuel with
    | zero => rfl
    | succ n => simp [gm_display_panel_set_corner_radii, set_corner_radii_null_diverges n self]
  exact ⟨hnull, hempty,
    by simpa [gm_display_panel_set_property, g_value_get_boxed] using hnull,
    by simpa [gm_display_panel_set_property, g_value_get_boxed] using hempty⟩


end Gmobile
